import Mathlib

/-!
Verification of the PokeAI self-play battle engines against their
natural-language specification.

This file is a shallow embedding of the code in
src/sims/selfplay/battle_engine.py (class BattleEngine) and of the parts of
src/sims/selfplay/enhanced_battle_engine.py (class EnhancedBattleEngine) that
the claims reference.  Python floats are modelled as exact rationals, Python
ints as integers, and every call into the process-global random module is
modelled as popping one draw from an explicitly threaded stream of rationals
in [0,1) (the stream plays the role of the seeded global Mersenne Twister
state).  Fallible dictionary lookups become Option-valued association-list
lookups.
-/

namespace PokeAI

/-!
Python float arithmetic in this engine is modelled exactly: every constant the
engine multiplies or divides by is a small rational, so the computation is
exact rational arithmetic.  The carrier type Pyq is an executable normalized
fraction (its gcd runs on structural fuel, so the kernel can evaluate every
engine run by decide); toRat gives the represented rational number, and the
bridge lemmas below the definitions transfer algebraic facts from Mathlib.
-/

/-- Euclid with structural fuel (one unit of fuel per step; the first
argument strictly decreases, so fuel m + 1 always suffices). -/
def gcdFuel : ℕ → ℕ → ℕ → ℕ
  | 0, _, n => n
  | fuel + 1, m, n => if m = 0 then n else gcdFuel fuel (n % m) m

/-- Kernel-reducible gcd. -/
def gcdF (m n : ℕ) : ℕ := gcdFuel (m + 1) m n

/-- An exact fraction; every value the engine produces is normalized (positive
denominator, reduced) because every operation goes through mkQ. -/
structure Pyq where
  num : ℤ
  den : ℤ
deriving DecidableEq, Repr

/-- Build the normalized fraction n / d (0 when d = 0; the engine never
divides by zero on the inputs the claims use). -/
def mkQ (n d : ℤ) : Pyq :=
  if d = 0 then ⟨0, 1⟩
  else if n = 0 then ⟨0, 1⟩
  else
    let n' := if d < 0 then -n else n
    let d' := if d < 0 then -d else d
    let g : ℤ := (gcdF n'.natAbs d'.natAbs : ℕ)
    ⟨Int.ediv n' g, Int.ediv d' g⟩

def Pyq.ofInt (n : ℤ) : Pyq := ⟨n, 1⟩

instance : OfNat Pyq n := ⟨Pyq.ofInt n⟩

instance : IntCast Pyq := ⟨Pyq.ofInt⟩

instance : NatCast Pyq := ⟨fun n => Pyq.ofInt n⟩

instance : Add Pyq := ⟨fun a b => mkQ (a.num * b.den + b.num * a.den) (a.den * b.den)⟩

instance : Sub Pyq := ⟨fun a b => mkQ (a.num * b.den - b.num * a.den) (a.den * b.den)⟩

instance : Mul Pyq := ⟨fun a b => mkQ (a.num * b.num) (a.den * b.den)⟩

instance : Div Pyq := ⟨fun a b => mkQ (a.num * b.den) (a.den * b.num)⟩

instance : Neg Pyq := ⟨fun a => mkQ (-a.num) a.den⟩

instance : LT Pyq := ⟨fun a b => a.num * b.den < b.num * a.den⟩

instance : LE Pyq := ⟨fun a b => a.num * b.den ≤ b.num * a.den⟩

instance (a b : Pyq) : Decidable (a < b) :=
  inferInstanceAs (Decidable (a.num * b.den < b.num * a.den))

instance (a b : Pyq) : Decidable (a ≤ b) :=
  inferInstanceAs (Decidable (a.num * b.den ≤ b.num * a.den))

/-- The rational number a Pyq represents. -/
def toRat (q : Pyq) : ℚ := (q.num : ℚ) / (q.den : ℚ)

/-- Python max of two floats. -/
def pyMax (a b : Pyq) : Pyq := if a < b then b else a

/-- Python min of two floats. -/
def pyMin (a b : Pyq) : Pyq := if b < a then b else a

/-- Python int() applied to a float: truncation toward zero. -/
def pyInt (q : Pyq) : ℤ := q.num.tdiv q.den

/-- The state of the process-global random module, modelled as the stream of
uniform draws in [0,1) it will produce, in order. -/
abbrev Rng := List Pyq

/-- One call to random.random(): pop the next draw. -/
def rand (r : Rng) : Pyq × Rng := (r.headD 0, r.tail)

/-- One call to random.uniform(lo, hi). -/
def pyUniform (lo hi : Pyq) (r : Rng) : Pyq × Rng :=
  let (u, r) := rand r
  (lo + (hi - lo) * u, r)

/-- One call to random.choice(xs) on a nonempty list: a uniformly chosen
element, modelled as indexing by the next draw. -/
def pyChoice (xs : List α) (dflt : α) (r : Rng) : α × Rng :=
  let (u, r) := rand r
  (xs.getD (min (xs.length - 1) (pyInt (u * xs.length)).toNat) dflt, r)

/-- ASCII lowercasing of one character (which covers every identifier in the
data). -/
def pyCharLower (c : Char) : Char :=
  if 65 ≤ c.toNat ∧ c.toNat ≤ 90 then Char.ofNat (c.toNat + 32) else c

/-- Python str.lower(). -/
def pyLower (s : String) : String := ⟨s.data.map pyCharLower⟩

/-- Left-to-right non-overlapping replacement over the character list, on
structural fuel (one unit per character; the list length always suffices). -/
def replFuel (pat rep : List Char) : ℕ → List Char → List Char
  | 0, l => l
  | fuel + 1, l =>
      match l with
      | [] => []
      | c :: rest =>
          if pat.isPrefixOf l then rep ++ replFuel pat rep fuel (l.drop pat.length)
          else c :: replFuel pat rep fuel rest

/-- Python str.replace(pat, rep). -/
def pyReplace (s pat rep : String) : String :=
  ⟨replFuel pat.data rep.data s.data.length s.data⟩

/-- class MoveCategory(Enum), battle_engine.py lines 26-29. -/
inductive MoveCategory where
  | PHYSICAL
  | SPECIAL
  | STATUS
deriving DecidableEq

/-- class StatusCondition(Enum), battle_engine.py lines 31-39. -/
inductive StatusCondition where
  | NONE
  | BURN
  | FREEZE
  | PARALYSIS
  | POISON
  | BADLY_POISONED
  | SLEEP
  | CONFUSION
deriving DecidableEq

/-- The .value string of a StatusCondition member. -/
def StatusCondition.value : StatusCondition → String
  | .NONE => "none"
  | .BURN => "burn"
  | .FREEZE => "freeze"
  | .PARALYSIS => "paralysis"
  | .POISON => "poison"
  | .BADLY_POISONED => "badly_poisoned"
  | .SLEEP => "sleep"
  | .CONFUSION => "confusion"

/-- The "secondary" sub-dict of a move effects dict. -/
structure Secondary where
  chance : Pyq
  effect : String
deriving DecidableEq

/-- A move effects dict: the keys the engine consults ("secondary", "status",
"hazard", "screen", "heal"); an absent key is an Option.none field.  An
Effects value with every field absent models the empty dict. -/
structure Effects where
  secondary : Option Secondary := Option.none
  status : Option String := Option.none
  hazard : Option String := Option.none
  screen : Option String := Option.none
  heal : Option Pyq := Option.none
deriving DecidableEq

/-- Python falsiness of a move.effects value (None or the empty dict). -/
def effectsFalsy : Option Effects → Bool
  | Option.none => true
  | Option.some fx => fx == {}

/-- dataclass Move, battle_engine.py lines 41-51 (effects defaults to None). -/
structure Move where
  name : String
  move_id : String
  type : String
  category : MoveCategory
  power : ℤ
  accuracy : ℤ
  pp : ℤ
  priority : ℤ
  effects : Option Effects := Option.none
deriving DecidableEq

/-- The boosts dict a Pokemon gets in __post_init__, line 76. -/
structure Boosts where
  atk : ℤ := 0
  def_ : ℤ := 0
  spa : ℤ := 0
  spd : ℤ := 0
  spe : ℤ := 0
  accuracy : ℤ := 0
  evasion : ℤ := 0
deriving DecidableEq

/-- dataclass Pokemon, battle_engine.py lines 53-76. -/
structure Pokemon where
  species : String
  level : ℤ
  hp : ℤ
  max_hp : ℤ
  atk : ℤ
  def_ : ℤ
  spa : ℤ
  spd : ℤ
  spe : ℤ
  types : List String
  ability : String
  item : String
  moves : List Move
  status : StatusCondition := StatusCondition.NONE
  status_turns : ℤ := 0
  boosts : Boosts := {}
  tera_type : Option String := Option.none
  terastallized : Bool := false
deriving DecidableEq

/-- A value in a log entry details dict (the engine only stores strings and
ints there). -/
inductive DetailValue where
  | s (v : String)
  | i (v : ℤ)
deriving DecidableEq

/-- dataclass BattleLogEntry, battle_engine.py lines 78-88. -/
structure BattleLogEntry where
  turn : ℤ
  player : String
  action : String
  details : List (String × DetailValue)
  result : String
  damage : ℤ := 0
  accuracy_roll : Pyq := 0
  critical_hit : Bool := false
  effectiveness : Pyq := 1
deriving DecidableEq

/-- The hazards sub-dict of a side / field dict, simulate_battle line 557. -/
structure Hazards where
  spikes : ℤ := 0
  toxicSpikes : ℤ := 0
  stealthRock : Bool := false
  stickyWeb : Bool := false
deriving DecidableEq

/-- The screens sub-dict, simulate_battle line 558.  The extra lowercase
field models the "lightscreen" key that apply_move_effects (line 341) adds
dynamically next to the preexisting "lightScreen" key. -/
structure Screens where
  reflect : Bool := false
  lightScreen : Bool := false
  auroraVeil : Bool := false
  lightscreen : Bool := false
deriving DecidableEq

/-- The sideConditions sub-dict, simulate_battle line 559. -/
structure SideConditions where
  tailwind : Bool := false
  trickRoom : Bool := false
  gravity : Bool := false
  wonderRoom : Bool := false
  magicRoom : Bool := false
deriving DecidableEq

/-- A side dict (and also the structurally identical global field dict of the
basic engine), simulate_battle lines 556-560. -/
structure SideState where
  hazards : Hazards := {}
  screens : Screens := {}
  sideConditions : SideConditions := {}
deriving DecidableEq

/-- One player entry of the battle_state dict: active, bench, side. -/
structure PlayerState where
  active : Pokemon
  bench : List Pokemon
  side : SideState := {}
deriving DecidableEq

/-- The battle_state dict built by simulate_battle, lines 551-576. -/
structure BattleState where
  turn : ℤ
  p1 : PlayerState
  p2 : PlayerState
  field : SideState
deriving DecidableEq

/-- The two player keys "p1" and "p2". -/
inductive Player where
  | p1
  | p2
deriving DecidableEq

def Player.other : Player → Player
  | .p1 => .p2
  | .p2 => .p1

def Player.str : Player → String
  | .p1 => "p1"
  | .p2 => "p2"

/-- battle_state[player]. -/
def BattleState.get (s : BattleState) : Player → PlayerState
  | .p1 => s.p1
  | .p2 => s.p2

/-- battle_state[player] = ps. -/
def BattleState.set (s : BattleState) : Player → PlayerState → BattleState
  | .p1, ps => { s with p1 := ps }
  | .p2, ps => { s with p2 := ps }

/-- An action dict as produced by get_random_action: either
a move dict with keys "move" and "priority" or a switch dict with keys
"pokemon" and "priority". -/
inductive Action where
  | move (move : String) (priority : ℤ)
  | switch (pokemon : ℕ) (priority : ℤ)
deriving DecidableEq

/-- action.get("priority", 0). -/
def Action.prio : Action → ℤ
  | .move _ p => p
  | .switch _ p => p

/-- action["move"]; only read on move actions. -/
def Action.moveId : Action → String
  | .move m _ => m
  | .switch _ _ => ""

/-- action["pokemon"]; only read on switch actions. -/
def Action.pokemonIdx : Action → ℕ
  | .move _ _ => 0
  | .switch i _ => i

/-- The return dict of simulate_battle, lines 599-604. -/
structure BattleResult where
  winner : String
  turns : ℤ
  battle_log : List BattleLogEntry
  final_state : BattleState
deriving DecidableEq

/-- A "baseStats" table entry (pokemon.json). -/
structure BaseStats where
  hp : Pyq
  atk : Pyq
  def_ : Pyq
  spa : Pyq
  spd : Pyq
  spe : Pyq
deriving DecidableEq

/-- One species entry of the loaded pokemon.json table. -/
structure SpeciesData where
  baseStats : BaseStats
  types : List String
  abilities : List String
  commonMoves : Option (List String) := Option.none
deriving DecidableEq

/-- One move entry of the loaded moves.json table; priority and effects model
the .get defaults used by get_move_data. -/
structure MoveData where
  name : String
  type : String
  category : MoveCategory
  power : ℤ
  accuracy : ℤ
  pp : ℤ
  priority : Option ℤ := Option.none
  effects : Option Effects := Option.none
deriving DecidableEq

/-- One type entry of the loaded type_effectiveness.json table. -/
structure TypeData where
  super_effective : List String := []
  not_very_effective : List String := []
  no_effect : List String := []
deriving DecidableEq

/-- A string-keyed read-only table (a loaded JSON dict). -/
def lookupTable (t : List (String × α)) (k : String) : Option α :=
  (t.find? (fun kv => kv.1 == k)).map (fun kv => kv.2)

/-- class BattleEngine: its loaded read-only data tables (the result of
load_moves_data, load_pokemon_data, load_type_effectiveness). -/
structure BattleEngine where
  moves_data : List (String × MoveData) := []
  pokemon_data : List (String × SpeciesData) := []
  type_effectiveness : List (String × TypeData) := []
deriving DecidableEq

/-- BattleEngine.create_fallback_pokemon, lines 162-178. -/
def create_fallback_pokemon (species : String) (level : ℤ) : Pokemon :=
  { species := species
    level := level
    hp := 100
    max_hp := 100
    atk := 100
    def_ := 100
    spa := 100
    spd := 100
    spe := 100
    types := ["Normal"]
    ability := ""
    item := ""
    moves := [{ name := "Tackle", move_id := "tackle", type := "Normal",
                category := MoveCategory.PHYSICAL, power := 40, accuracy := 100,
                pp := 35, priority := 0 }] }

/-- BattleEngine.get_move_data, lines 180-197. -/
def BattleEngine.get_move_data (e : BattleEngine) (move_name : String) : Option Move :=
  let move_id := pyReplace (pyReplace (pyLower move_name) " " "") "-" ""
  match lookupTable e.moves_data move_id with
  | Option.none => Option.none
  | Option.some md =>
      Option.some
        { name := md.name
          move_id := move_id
          type := md.type
          category := md.category
          power := md.power
          accuracy := md.accuracy
          pp := md.pp
          priority := md.priority.getD 0
          effects := Option.some (md.effects.getD {}) }

/-- BattleEngine.create_pokemon_from_species, lines 124-160.  The Python
expression data["abilities"][0] raises on an empty list; it is modelled with
the empty-string default (no claim exercises an empty abilities entry). -/
def BattleEngine.create_pokemon_from_species (e : BattleEngine) (species : String)
    (level : ℤ) : Pokemon :=
  let species_lower := pyReplace (pyLower species) " " "-"
  match lookupTable e.pokemon_data species_lower with
  | Option.none => create_fallback_pokemon species level
  | Option.some data =>
      let hp := pyInt (data.baseStats.hp * 2 + 110)
      let moves := (data.commonMoves.getD ["Tackle"]).filterMap e.get_move_data
      { species := species
        level := level
        hp := hp
        max_hp := hp
        atk := pyInt (data.baseStats.atk * 2 + 5)
        def_ := pyInt (data.baseStats.def_ * 2 + 5)
        spa := pyInt (data.baseStats.spa * 2 + 5)
        spd := pyInt (data.baseStats.spd * 2 + 5)
        spe := pyInt (data.baseStats.spe * 2 + 5)
        types := data.types
        ability := data.abilities.headD ""
        item := ""
        moves := moves }

/-- BattleEngine.calculate_type_effectiveness, lines 199-215. -/
def BattleEngine.calculate_type_effectiveness (e : BattleEngine) (move_type : String)
    (target_types : List String) : Pyq :=
  match lookupTable e.type_effectiveness move_type with
  | Option.none => 1
  | Option.some type_data =>
      target_types.foldl
        (fun eff target_type =>
          if type_data.super_effective.contains target_type then eff * 2
          else if type_data.not_very_effective.contains target_type then eff * (1/2)
          else if type_data.no_effect.contains target_type then eff * 0
          else eff)
        1

/-- BattleEngine.get_stat_multiplier, lines 261-266. -/
def get_stat_multiplier (boost_level : ℤ) : Pyq :=
  if boost_level ≥ 0 then (2 + (boost_level : Pyq)) / 2
  else 2 / (2 + ((|boost_level| : ℤ) : Pyq))

/-- BattleEngine.calculate_damage, lines 217-259.  Returns the Python triple
(damage, critical_hit, effectiveness) together with the advanced RNG. -/
def BattleEngine.calculate_damage (e : BattleEngine) (attacker defender : Pokemon)
    (move : Move) (_battle_state : BattleState) (r : Rng) :
    (ℤ × Bool × Pyq) × Rng :=
  if move.category == MoveCategory.STATUS then ((0, false, 1), r)
  else
    let stats : Pyq × Pyq :=
      if move.category == MoveCategory.PHYSICAL then
        ((attacker.atk : Pyq) * get_stat_multiplier attacker.boosts.atk,
         (defender.def_ : Pyq) * get_stat_multiplier defender.boosts.def_)
      else
        ((attacker.spa : Pyq) * get_stat_multiplier attacker.boosts.spa,
         (defender.spd : Pyq) * get_stat_multiplier defender.boosts.spd)
    let (attack_stat, defense_stat) := stats
    let level_factor : Pyq := (2 * (attacker.level : Pyq) + 10) / 250
    let base_power : Pyq := (move.power : Pyq)
    let effectiveness := e.calculate_type_effectiveness move.type defender.types
    let (u, r) := rand r
    let critical_hit := u < 1/16
    let level_factor := if critical_hit then level_factor * 2 else level_factor
    let stab : Pyq := if attacker.types.contains move.type then 3/2 else 1
    let (random_factor, r) := pyUniform (17/20) 1 r
    let damage :=
      pyInt ((level_factor * attack_stat * base_power / defense_stat + 2) *
        stab * effectiveness * random_factor)
    let damage :=
      if attacker.status == StatusCondition.BURN && move.category == MoveCategory.PHYSICAL
      then pyInt ((damage : Pyq) * (1/2)) else damage
    ((max 1 damage, critical_hit, effectiveness), r)

/-- BattleEngine.check_accuracy, lines 268-280. -/
def BattleEngine.check_accuracy (_e : BattleEngine) (move : Move)
    (attacker defender : Pokemon) (r : Rng) : Bool × Rng :=
  if move.accuracy = 100 then (true, r)
  else
    let accuracy : Pyq := (move.accuracy : Pyq) * get_stat_multiplier attacker.boosts.accuracy
    let accuracy := accuracy * get_stat_multiplier (-defender.boosts.evasion)
    let accuracy := pyMax 1 (pyMin 100 accuracy)
    let (u, r) := rand r
    (decide (u < accuracy / 100), r)

/-- The secondary-effects block of BattleEngine.apply_move_effects, lines
290-312 (draws the chance roll and may drop the defender Sp.Def stage or
burn it). -/
def ame_secondary (defender : Pokemon) (battle_state : BattleState) (fx : Effects)
    (r : Rng) : Pokemon × List BattleLogEntry × Rng :=
  match fx.secondary with
  | Option.none => (defender, [], r)
  | Option.some secondary =>
      let (u, r) := rand r
      if u < secondary.chance / 100 then
        if secondary.effect == "spdef_drop" then
          let defender :=
            { defender with
              boosts := { defender.boosts with
                          spd := max (-6) (defender.boosts.spd - 1) } }
          (defender,
           [{ turn := battle_state.turn, player := "system", action := "stat_change",
              details := [("target", DetailValue.s defender.species),
                          ("stat", DetailValue.s "spd"),
                          ("change", DetailValue.i (-1))],
              result := "spdef_dropped" }], r)
        else if secondary.effect == "burn" then
          if defender.status == StatusCondition.NONE then
            let defender := { defender with status := StatusCondition.BURN }
            (defender,
             [{ turn := battle_state.turn, player := "system", action := "status",
                details := [("target", DetailValue.s defender.species),
                            ("status", DetailValue.s "burn")],
                result := "burned" }], r)
          else (defender, [], r)
        else (defender, [], r)
      else (defender, [], r)

/-- The status-move block of apply_move_effects, lines 314-325. -/
def ame_status (defender : Pokemon) (fx : Effects) : Pokemon :=
  match fx.status with
  | Option.none => defender
  | Option.some status_name =>
      if defender.status == StatusCondition.NONE then
        if status_name == "badly_poisoned" then
          { defender with status := StatusCondition.BADLY_POISONED, status_turns := 0 }
        else if status_name == "burn" then
          { defender with status := StatusCondition.BURN }
        else if status_name == "paralysis" then
          { defender with status := StatusCondition.PARALYSIS }
        else defender
      else defender

/-- The hazard block of apply_move_effects, lines 327-333 (writes into the
shared battle_state["field"] dict). -/
def ame_hazard (battle_state : BattleState) (fx : Effects) : BattleState :=
  match fx.hazard with
  | Option.none => battle_state
  | Option.some hazard_type =>
      if hazard_type == "stealthrock" then
        { battle_state with
          field := { battle_state.field with
                     hazards := { battle_state.field.hazards with stealthRock := true } } }
      else if hazard_type == "spikes" then
        { battle_state with
          field := { battle_state.field with
                     hazards := { battle_state.field.hazards with
                                  spikes := battle_state.field.hazards.spikes + 1 } } }
      else battle_state

/-- The screen block of apply_move_effects, lines 335-341 (always writes into
p1 side, and the lowercase "lightscreen" key). -/
def ame_screen (battle_state : BattleState) (fx : Effects) : BattleState :=
  match fx.screen with
  | Option.none => battle_state
  | Option.some screen_type =>
      if screen_type == "reflect" then
        { battle_state with
          p1 := { battle_state.p1 with
                  side := { battle_state.p1.side with
                            screens := { battle_state.p1.side.screens with
                                         reflect := true } } } }
      else if screen_type == "lightscreen" then
        { battle_state with
          p1 := { battle_state.p1 with
                  side := { battle_state.p1.side with
                            screens := { battle_state.p1.side.screens with
                                         lightscreen := true } } } }
      else battle_state

/-- The healing block of apply_move_effects, lines 343-354. -/
def ame_heal (attacker : Pokemon) (battle_state : BattleState) (fx : Effects) :
    Pokemon × List BattleLogEntry :=
  match fx.heal with
  | Option.none => (attacker, [])
  | Option.some heal_percent =>
      let heal_amount := pyInt ((attacker.max_hp : Pyq) * heal_percent)
      let attacker := { attacker with hp := min attacker.max_hp (attacker.hp + heal_amount) }
      (attacker,
       [{ turn := battle_state.turn, player := attacker.species, action := "heal",
          details := [("amount", DetailValue.i heal_amount)],
          result := "healed" }])

/-- BattleEngine.apply_move_effects, lines 282-356, assembled from the blocks
above in source order.  The Python function mutates the attacker, the
defender, battle_state["field"]["hazards"] and
battle_state["p1"]["side"]["screens"] in place; here the updated attacker and
defender are returned alongside the updated state and the caller writes them
back into the active slots they alias. -/
def BattleEngine.apply_move_effects (_e : BattleEngine) (attacker defender : Pokemon)
    (move : Move) (battle_state : BattleState) (r : Rng) :
    Pokemon × Pokemon × BattleState × List BattleLogEntry × Rng :=
  if effectsFalsy move.effects then (attacker, defender, battle_state, [], r)
  else
    let fx := move.effects.getD {}
    let (defender, log_entries, r) := ame_secondary defender battle_state fx r
    let defender := ame_status defender fx
    let battle_state := ame_hazard battle_state fx
    let battle_state := ame_screen battle_state fx
    let (attacker, heal_log) := ame_heal attacker battle_state fx
    (attacker, defender, battle_state, log_entries ++ heal_log, r)

/-- BattleEngine.apply_status_damage, lines 358-371.  Returns the mutated
Pokemon together with the damage value the Python function returns. -/
def apply_status_damage (pokemon : Pokemon) : Pokemon × ℤ :=
  let step : Pokemon × ℤ :=
    if pokemon.status == StatusCondition.BURN then
      (pokemon, pyInt ((pokemon.max_hp : Pyq) * (1/8)))
    else if pokemon.status == StatusCondition.POISON then
      (pokemon, pyInt ((pokemon.max_hp : Pyq) * (1/8)))
    else if pokemon.status == StatusCondition.BADLY_POISONED then
      let pokemon := { pokemon with status_turns := pokemon.status_turns + 1 }
      (pokemon, pyInt ((pokemon.max_hp : Pyq) * (1/8) * (pokemon.status_turns : Pyq)))
    else (pokemon, 0)
  let (pokemon, damage) := step
  ({ pokemon with hp := max 0 (pokemon.hp - damage) }, damage)

/-- BattleEngine.check_status_effects, lines 373-384: true means the action
may proceed. -/
def check_status_effects (pokemon : Pokemon) (r : Rng) : Bool × Rng :=
  if pokemon.status == StatusCondition.SLEEP then
    let (u, r) := rand r
    (decide (u < 33/100), r)
  else if pokemon.status == StatusCondition.FREEZE then
    let (u, r) := rand r
    (decide (u < 20/100), r)
  else if pokemon.status == StatusCondition.PARALYSIS then
    let (u, r) := rand r
    (decide (u < 25/100), r)
  else if pokemon.status == StatusCondition.CONFUSION then
    let (u, r) := rand r
    if u < 33/100 then (false, r) else (true, r)
  else (true, r)

/-- The order-determination prefix of BattleEngine.simulate_turn, lines
390-413 (the identical code appears in EnhancedBattleEngine.simulate_turn,
enhanced_battle_engine.py lines 630-652). -/
def determine_action_order (battle_state : BattleState)
    (p1_action p2_action : Action) (r : Rng) : List (Player × Action) × Rng :=
  if p1_action.prio > p2_action.prio then
    ([(Player.p1, p1_action), (Player.p2, p2_action)], r)
  else if p2_action.prio > p1_action.prio then
    ([(Player.p2, p2_action), (Player.p1, p1_action)], r)
  else
    let p1_speed := (battle_state.p1.active.spe : Pyq) *
      get_stat_multiplier battle_state.p1.active.boosts.spe
    let p2_speed := (battle_state.p2.active.spe : Pyq) *
      get_stat_multiplier battle_state.p2.active.boosts.spe
    if p1_speed > p2_speed then
      ([(Player.p1, p1_action), (Player.p2, p2_action)], r)
    else if p2_speed > p1_speed then
      ([(Player.p2, p2_action), (Player.p1, p1_action)], r)
    else
      pyChoice [[(Player.p1, p1_action), (Player.p2, p2_action)],
                [(Player.p2, p2_action), (Player.p1, p1_action)]]
        [] r

/-- BattleEngine.execute_move, lines 445-502. -/
def BattleEngine.execute_move (e : BattleEngine) (battle_state : BattleState)
    (player : Player) (action : Action) (r : Rng) :
    BattleState × List BattleLogEntry × Rng :=
  let attacker := (battle_state.get player).active
  let defender := (battle_state.get player.other).active
  match attacker.moves.find? (fun m => m.move_id == action.moveId) with
  | Option.none => (battle_state, [], r)
  | Option.some move =>
      let (hitOk, r) := e.check_accuracy move attacker defender r
      if !hitOk then
        let (u, r) := rand r
        (battle_state,
         [{ turn := battle_state.turn, player := player.str, action := "move",
            details := [("move", DetailValue.s move.name),
                        ("target", DetailValue.s defender.species)],
            result := "missed", accuracy_roll := u }], r)
      else if move.category != MoveCategory.STATUS then
        let ((damage, critical_hit, effectiveness), r) :=
          e.calculate_damage attacker defender move battle_state r
        let defender := { defender with hp := max 0 (defender.hp - damage) }
        let (u, r) := rand r
        let entry : BattleLogEntry :=
          { turn := battle_state.turn, player := player.str, action := "move",
            details := [("move", DetailValue.s move.name),
                        ("target", DetailValue.s defender.species)],
            result := "hit", damage := damage, accuracy_roll := u,
            critical_hit := critical_hit, effectiveness := effectiveness }
        let (attacker, defender, battle_state, effect_log, r) :=
          e.apply_move_effects attacker defender move battle_state r
        let battle_state :=
          battle_state.set player { (battle_state.get player) with active := attacker }
        let battle_state :=
          battle_state.set player.other
            { (battle_state.get player.other) with active := defender }
        (battle_state, [entry] ++ effect_log, r)
      else
        let entry : BattleLogEntry :=
          { turn := battle_state.turn, player := player.str, action := "move",
            details := [("move", DetailValue.s move.name),
                        ("target", DetailValue.s defender.species)],
            result := "status_move" }
        let (attacker, defender, battle_state, effect_log, r) :=
          e.apply_move_effects attacker defender move battle_state r
        let battle_state :=
          battle_state.set player { (battle_state.get player) with active := attacker }
        let battle_state :=
          battle_state.set player.other
            { (battle_state.get player.other) with active := defender }
        (battle_state, [entry] ++ effect_log, r)

/-- BattleEngine.execute_switch, lines 504-525: swaps active and bench entry
and logs; the basic engine applies nothing else on switch-in. -/
def BattleEngine.execute_switch (_e : BattleEngine) (battle_state : BattleState)
    (player : Player) (action : Action) : BattleState × List BattleLogEntry :=
  let pokemon_index := action.pokemonIdx
  let ps := battle_state.get player
  if pokemon_index < ps.bench.length then
    let active := ps.active
    let bench_pokemon := ps.bench.getD pokemon_index active
    let battle_state :=
      battle_state.set player
        { ps with active := bench_pokemon, bench := ps.bench.set pokemon_index active }
    (battle_state,
     [{ turn := battle_state.turn, player := player.str, action := "switch",
        details := [("from", DetailValue.s active.species),
                    ("to", DetailValue.s bench_pokemon.species)],
        result := "switched" }])
  else (battle_state, [])

/-- The per-player body of BattleEngine.apply_end_of_turn_effects, lines
531-543. -/
def end_of_turn_step (acc : BattleState × List BattleLogEntry) (player : Player) :
    BattleState × List BattleLogEntry :=
  let (s, log) := acc
  let pokemon := (s.get player).active
  if pokemon.hp > 0 then
    let (ticked, status_damage) := apply_status_damage pokemon
    let s := s.set player { (s.get player) with active := ticked }
    if status_damage > 0 then
      (s, log ++
        [{ turn := s.turn, player := player.str, action := "status_damage",
           details := [("status", DetailValue.s ticked.status.value),
                       ("damage", DetailValue.i status_damage)],
           result := "status_damage" }])
    else (s, log)
  else acc

/-- BattleEngine.apply_end_of_turn_effects, lines 527-545. -/
def BattleEngine.apply_end_of_turn_effects (_e : BattleEngine)
    (battle_state : BattleState) : BattleState × List BattleLogEntry :=
  [Player.p1, Player.p2].foldl end_of_turn_step (battle_state, [])

/-- The per-action body of the execution loop in BattleEngine.simulate_turn,
lines 416-437 (skip fainted actor, status check, then dispatch on the action
type). -/
def BattleEngine.run_action (e : BattleEngine)
    (acc : BattleState × List BattleLogEntry × Rng) (pa : Player × Action) :
    BattleState × List BattleLogEntry × Rng :=
  let (s, turn_log, r) := acc
  let (player, action) := pa
  if (s.get player).active.hp ≤ 0 then acc
  else
    let (can_act, r) := check_status_effects (s.get player).active r
    if !can_act then
      (s, turn_log ++
        [{ turn := s.turn, player := player.str, action := "status_prevented",
           details := [("status", DetailValue.s (s.get player).active.status.value)],
           result := "action_prevented" }], r)
    else
      match action with
      | Action.move _ _ =>
          let (s, entries, r) := e.execute_move s player action r
          (s, turn_log ++ entries, r)
      | Action.switch _ _ =>
          let (s, entries) := e.execute_switch s player action
          (s, turn_log ++ entries, r)

/-- BattleEngine.simulate_turn, lines 386-443. -/
def BattleEngine.simulate_turn (e : BattleEngine) (battle_state : BattleState)
    (p1_action p2_action : Action) (r : Rng) :
    BattleState × List BattleLogEntry × Rng :=
  let (action_order, r) := determine_action_order battle_state p1_action p2_action r
  let (s, turn_log, r) := action_order.foldl e.run_action (battle_state, [], r)
  let (s, end_turn_log) := e.apply_end_of_turn_effects s
  (s, turn_log ++ end_turn_log, r)

/-- BattleEngine.count_remaining_pokemon, lines 629-640. -/
def count_remaining_pokemon (player_state : PlayerState) : ℕ :=
  (if player_state.active.hp > 0 then 1 else 0) +
    (player_state.bench.filter (fun p => p.hp > 0)).length

/-- BattleEngine.check_battle_end, lines 623-627. -/
def check_battle_end (battle_state : BattleState) : Bool :=
  count_remaining_pokemon battle_state.p1 = 0 ∨
    count_remaining_pokemon battle_state.p2 = 0

/-- BattleEngine.determine_winner, lines 642-652. -/
def determine_winner (battle_state : BattleState) : String :=
  let p1_remaining := count_remaining_pokemon battle_state.p1
  let p2_remaining := count_remaining_pokemon battle_state.p2
  if p1_remaining > p2_remaining then "p1"
  else if p2_remaining > p1_remaining then "p2"
  else "tie"

/-- BattleEngine.get_random_action, lines 606-621. -/
def BattleEngine.get_random_action (_e : BattleEngine) (battle_state : BattleState)
    (player : Player) (r : Rng) : Action × Rng :=
  let active := (battle_state.get player).active
  let (u, r) := rand r
  if u < 7/10 ∧ active.moves ≠ [] then
    let (move, r) := pyChoice active.moves
      { name := "", move_id := "", type := "", category := MoveCategory.PHYSICAL,
        power := 0, accuracy := 0, pp := 0, priority := 0 } r
    (Action.move move.move_id move.priority, r)
  else
    let healthy_bench :=
      ((battle_state.get player).bench.enum.filter (fun ip => ip.2.hp > 0)).map
        (fun ip => ip.1)
    if healthy_bench ≠ [] then
      let (i, r) := pyChoice healthy_bench 0 r
      (Action.switch i 0, r)
    else (Action.move "struggle" 0, r)

/-- The battle loop of BattleEngine.simulate_battle, lines 581-594:
for turn in range(1, max_turns + 1), with the early break when
check_battle_end holds at the top of an iteration. -/
def BattleEngine.run_turns (e : BattleEngine) :
    ℕ → ℕ → BattleState → List BattleLogEntry → Rng →
    BattleState × List BattleLogEntry × Rng
  | 0, _, s, log, r => (s, log, r)
  | n + 1, turn, s, log, r =>
      let s := { s with turn := (turn : ℤ) }
      if check_battle_end s then (s, log, r)
      else
        let (p1_action, r) := e.get_random_action s Player.p1 r
        let (p2_action, r) := e.get_random_action s Player.p2 r
        let (s, turn_log, r) := e.simulate_turn s p1_action p2_action r
        e.run_turns n (turn + 1) s (log ++ turn_log) r

/-- BattleEngine.simulate_battle, lines 547-604.  Python indexes team1[0]
(raising on an empty roster); the headD default models that rosters are
nonempty. -/
def BattleEngine.simulate_battle (e : BattleEngine) (team1 team2 : List Pokemon)
    (max_turns : ℕ) (r : Rng) : BattleResult :=
  let battle_state : BattleState :=
    { turn := 0
      p1 := { active := team1.headD (create_fallback_pokemon "" 100), bench := team1.tail }
      p2 := { active := team2.headD (create_fallback_pokemon "" 100), bench := team2.tail }
      field := {} }
  let (final_state, battle_log, _) := e.run_turns max_turns 1 battle_state [] r
  { winner := determine_winner final_state
    turns := final_state.turn
    battle_log := battle_log
    final_state := final_state }

/-- One ability entry of the loaded abilities.json table; trigger models the
.get("trigger") access (a missing key compares unequal to every trigger
string). -/
structure AbilityData where
  trigger : Option String := Option.none
  effect : String
deriving DecidableEq

/-- class EnhancedBattleEngine (enhanced_battle_engine.py): the loaded table
its switch-in path consults. -/
structure EnhancedBattleEngine where
  abilities_data : List (String × AbilityData) := []
deriving DecidableEq

/-- EnhancedBattleEngine.get_ability_data, lines 265-268. -/
def EnhancedBattleEngine.get_ability_data (e : EnhancedBattleEngine)
    (ability_name : String) : Option AbilityData :=
  lookupTable e.abilities_data (pyReplace (pyLower ability_name) " " "_")

/-- EnhancedBattleEngine.apply_ability_effects, lines 275-321.  The Python
function mutates objects in place and finds the opponent of the passed
pokemon by comparing it against battle_state["p1"]["active"] (dataclass value
equality); the in-place mutation of the passed pokemon in the
heal_on_switch branch is modelled through the side slot derived by that same
comparison (at every call site the pokemon is one of the actives). -/
def EnhancedBattleEngine.apply_ability_effects (e : EnhancedBattleEngine)
    (pokemon : Pokemon) (battle_state : BattleState) (trigger : String) :
    BattleState × List BattleLogEntry :=
  match e.get_ability_data pokemon.ability with
  | Option.none => (battle_state, [])
  | Option.some ability_data =>
      if ability_data.trigger == Option.some trigger then
        if ability_data.effect == "lowers_attack" && trigger == "on_switch_in" then
          let oppP : Player :=
            if pokemon == battle_state.p1.active then Player.p2 else Player.p1
          let opponent := (battle_state.get oppP).active
          let opponent :=
            { opponent with
              boosts := { opponent.boosts with
                          atk := max (-6) (opponent.boosts.atk - 1) } }
          let battle_state :=
            battle_state.set oppP { (battle_state.get oppP) with active := opponent }
          (battle_state,
           [{ turn := battle_state.turn, player := "system", action := "ability",
              details := [("ability", DetailValue.s pokemon.ability),
                          ("target", DetailValue.s opponent.species),
                          ("effect", DetailValue.s "attack_lowered")],
              result := "ability_triggered" }])
        else if ability_data.effect == "heal_on_switch" && trigger == "on_switch_out" then
          let selfP : Player :=
            if pokemon == battle_state.p1.active then Player.p1 else Player.p2
          let heal_amount := pyInt ((pokemon.max_hp : Pyq) * (33/100))
          let pokemon :=
            { pokemon with hp := min pokemon.max_hp (pokemon.hp + heal_amount) }
          let battle_state :=
            battle_state.set selfP { (battle_state.get selfP) with active := pokemon }
          (battle_state,
           [{ turn := battle_state.turn, player := "system", action := "ability",
              details := [("ability", DetailValue.s pokemon.ability),
                          ("heal", DetailValue.i heal_amount)],
              result := "ability_triggered" }])
        else if ability_data.effect == "contact_damage" && trigger == "on_contact" then
          let attP : Player :=
            if pokemon == battle_state.p1.active then Player.p2 else Player.p1
          let attacker := (battle_state.get attP).active
          let damage := pyInt ((attacker.max_hp : Pyq) * (1/8))
          let attacker := { attacker with hp := max 0 (attacker.hp - damage) }
          let battle_state :=
            battle_state.set attP { (battle_state.get attP) with active := attacker }
          (battle_state,
           [{ turn := battle_state.turn, player := "system", action := "ability",
              details := [("ability", DetailValue.s pokemon.ability),
                          ("target", DetailValue.s attacker.species),
                          ("damage", DetailValue.i damage)],
              result := "ability_triggered" }])
        else (battle_state, [])
      else (battle_state, [])

/-- EnhancedBattleEngine.execute_switch, lines 743-768: swaps active and
bench entry, logs, and fires on-switch-in ability effects; like the basic
engine it applies no hazard effect of any kind. -/
def EnhancedBattleEngine.execute_switch (e : EnhancedBattleEngine)
    (battle_state : BattleState) (player : Player) (action : Action) :
    BattleState × List BattleLogEntry :=
  let pokemon_index := action.pokemonIdx
  let ps := battle_state.get player
  if pokemon_index < ps.bench.length then
    let active := ps.active
    let bench_pokemon := ps.bench.getD pokemon_index active
    let battle_state :=
      battle_state.set player
        { ps with active := bench_pokemon, bench := ps.bench.set pokemon_index active }
    let entry : BattleLogEntry :=
      { turn := battle_state.turn, player := player.str, action := "switch",
        details := [("from", DetailValue.s active.species),
                    ("to", DetailValue.s bench_pokemon.species)],
        result := "switched" }
    let ab := e.apply_ability_effects bench_pokemon battle_state "on_switch_in"
    (ab.1, [entry] ++ ab.2)
  else (battle_state, [])

/-! Definitions modelled from the words of the specification, used to compare
the code against claim C2. -/

/-- Modelled from the spec (claim C2): effective speed is the speed stat
times the boost multiplier, times 0.25 when paralyzed, times 2.0 under
tailwind on that side. -/
def spec_effective_speed (battle_state : BattleState) (pl : Player) : Pyq :=
  let p := (battle_state.get pl).active
  let base := (p.spe : Pyq) * get_stat_multiplier p.boosts.spe
  let base := if p.status = StatusCondition.PARALYSIS then base * (1/4) else base
  if (battle_state.get pl).side.sideConditions.tailwind then base * 2 else base

/-- Modelled from the spec (claim C2, as stated): strictly higher priority
first; on a priority tie, higher spec_effective_speed first, with the speed
comparison inverted while Trick Room is active; on a full tie, the seeded
uniform-random coin flip. -/
def spec_claimed_order (battle_state : BattleState)
    (p1_action p2_action : Action) (r : Rng) : List (Player × Action) × Rng :=
  let fwd := [(Player.p1, p1_action), (Player.p2, p2_action)]
  let bwd := [(Player.p2, p2_action), (Player.p1, p1_action)]
  if p1_action.prio > p2_action.prio then (fwd, r)
  else if p2_action.prio > p1_action.prio then (bwd, r)
  else
    let s1 := spec_effective_speed battle_state Player.p1
    let s2 := spec_effective_speed battle_state Player.p2
    let trick := battle_state.field.sideConditions.trickRoom
    if (if trick then s1 < s2 else s1 > s2) then (fwd, r)
    else if (if trick then s2 < s1 else s2 > s1) then (bwd, r)
    else pyChoice [fwd, bwd] [] r

/-- The amended claim C2: effective speed is the speed stat times the boost
multiplier only; paralysis, tailwind and Trick Room are not consulted. -/
def spec_amended_order (battle_state : BattleState)
    (p1_action p2_action : Action) (r : Rng) : List (Player × Action) × Rng :=
  let fwd := [(Player.p1, p1_action), (Player.p2, p2_action)]
  let bwd := [(Player.p2, p2_action), (Player.p1, p1_action)]
  if p1_action.prio > p2_action.prio then (fwd, r)
  else if p2_action.prio > p1_action.prio then (bwd, r)
  else
    let speedOf := fun (pl : Player) =>
      ((battle_state.get pl).active.spe : Pyq) *
        get_stat_multiplier (battle_state.get pl).active.boosts.spe
    if speedOf Player.p1 > speedOf Player.p2 then (fwd, r)
    else if speedOf Player.p2 > speedOf Player.p1 then (bwd, r)
    else pyChoice [fwd, bwd] [] r

/-! Validity predicates for claim C8.  The auxiliary status_turns bound is
the (engine-maintained) fact needed for preservation: the counter starts at
0 and is only ever reset to 0 or incremented. -/

/-- Every boost stage lies in the interval allowed by the spec. -/
def BoostsValid (b : Boosts) : Prop :=
  -6 ≤ b.atk ∧ b.atk ≤ 6 ∧ -6 ≤ b.def_ ∧ b.def_ ≤ 6 ∧ -6 ≤ b.spa ∧ b.spa ≤ 6 ∧
  -6 ≤ b.spd ∧ b.spd ≤ 6 ∧ -6 ≤ b.spe ∧ b.spe ≤ 6 ∧ -6 ≤ b.accuracy ∧
  b.accuracy ≤ 6 ∧ -6 ≤ b.evasion ∧ b.evasion ≤ 6

/-- The claimed per-Combatant invariant (plus the auxiliary counter bound). -/
def PokemonValid (p : Pokemon) : Prop :=
  0 ≤ p.hp ∧ p.hp ≤ p.max_hp ∧ 0 ≤ p.status_turns ∧ BoostsValid p.boosts

/-- A move whose heal effect fraction (when present) is nonnegative, as every
heal entry of the content tables is; a negative fraction would make the
engine "heal" a Combatant below zero HP. -/
def MoveHealOk (m : Move) : Prop :=
  ∀ fx q, m.effects = Option.some fx → fx.heal = Option.some q → 0 ≤ toRat q

/-- All Combatants of a battle state are valid. -/
def StateValid (s : BattleState) : Prop :=
  PokemonValid s.p1.active ∧ (∀ p ∈ s.p1.bench, PokemonValid p) ∧
  PokemonValid s.p2.active ∧ (∀ p ∈ s.p2.bench, PokemonValid p)

/-- All moves carried by Combatants of a battle state have well-formed heal
effects. -/
def StateMovesOk (s : BattleState) : Prop :=
  (∀ m ∈ s.p1.active.moves, MoveHealOk m) ∧
  (∀ p ∈ s.p1.bench, ∀ m ∈ p.moves, MoveHealOk m) ∧
  (∀ m ∈ s.p2.active.moves, MoveHealOk m) ∧
  (∀ p ∈ s.p2.bench, ∀ m ∈ p.moves, MoveHealOk m)

instance (b : Boosts) : Decidable (BoostsValid b) :=
  inferInstanceAs (Decidable (-6 ≤ b.atk ∧ b.atk ≤ 6 ∧ -6 ≤ b.def_ ∧ b.def_ ≤ 6 ∧
    -6 ≤ b.spa ∧ b.spa ≤ 6 ∧ -6 ≤ b.spd ∧ b.spd ≤ 6 ∧ -6 ≤ b.spe ∧ b.spe ≤ 6 ∧
    -6 ≤ b.accuracy ∧ b.accuracy ≤ 6 ∧ -6 ≤ b.evasion ∧ b.evasion ≤ 6))

instance (p : Pokemon) : Decidable (PokemonValid p) :=
  inferInstanceAs (Decidable (0 ≤ p.hp ∧ p.hp ≤ p.max_hp ∧ 0 ≤ p.status_turns ∧
    BoostsValid p.boosts))

instance (s : BattleState) : Decidable (StateValid s) :=
  inferInstanceAs (Decidable (PokemonValid s.p1.active ∧
    (∀ p ∈ s.p1.bench, PokemonValid p) ∧ PokemonValid s.p2.active ∧
    (∀ p ∈ s.p2.bench, PokemonValid p)))

/-! Concrete data used by the counterexamples and witnesses. -/

/-- The Tackle literal of create_fallback_pokemon. -/
def demo_tackle : Move :=
  { name := "Tackle", move_id := "tackle", type := "Normal",
    category := MoveCategory.PHYSICAL, power := 40, accuracy := 100,
    pp := 35, priority := 0 }

/-- A small concrete Combatant (level 120 makes the level factor exactly 1). -/
def demo_mon (species : String) (hp spe : ℤ) : Pokemon :=
  { species := species, level := 120, hp := hp, max_hp := hp, atk := 16,
    def_ := 128, spa := 16, spd := 128, spe := spe, types := ["Normal"],
    ability := "", item := "", moves := [demo_tackle] }

/-- An engine with no loaded tables (every table file absent). -/
def e0 : BattleEngine := {}

/-- An enhanced engine with no loaded abilities table. -/
def enh0 : EnhancedBattleEngine := {}

/-- A state for claim C2: equal priorities, p1 visibly faster (speed 100 vs
60) but paralyzed, no tailwind, no Trick Room. -/
def cex_par_state : BattleState :=
  { turn := 1,
    p1 := { active := { demo_mon "alpha" 100 100 with
                        status := StatusCondition.PARALYSIS }, bench := [] },
    p2 := { active := demo_mon "beta" 100 60, bench := [] },
    field := {} }

/-- A priority-0 move action. -/
def cex_act : Action := Action.move "tackle" 0

/-- Rosters for claim C3: two survivors on one side, one on the other. -/
def cex_teamA : List Pokemon := [demo_mon "a1" 1000 50, demo_mon "a2" 1000 40]

def cex_teamB : List Pokemon := [demo_mon "b1" 1000 30]

/-- A draw stream for one full scripted turn: both sides pick their only
move, no critical hits, minimal damage rolls. -/
def cex_rng : Rng := [0, 0, 0, 0, 1/2, 0, 0, 1/2, 0, 0]

/-- A Fire-type Combatant with no held item, for claim C4. -/
def fire_mon : Pokemon := { demo_mon "cinder" 200 50 with types := ["Fire"] }

/-- A state for claim C4: stealth rock plus two spikes layers are up both on
the switching side and on the shared field dict, and the Fire-type sits on
the bench about to switch in. -/
def cex_hazard_state : BattleState :=
  { turn := 3,
    p1 := { active := demo_mon "lead" 200 50, bench := [fire_mon],
            side := { hazards := { spikes := 2, stealthRock := true } } },
    p2 := { active := demo_mon "foe" 200 50, bench := [] },
    field := { hazards := { spikes := 2, stealthRock := true } } }

/-- The switch action into bench slot 0. -/
def cex_switch_act : Action := Action.switch 0 0

/-- A non-always-hit damaging move for claim C6 (base accuracy 75). -/
def demo_slam : Move :=
  { name := "Slam", move_id := "slam", type := "Normal",
    category := MoveCategory.PHYSICAL, power := 80, accuracy := 75,
    pp := 20, priority := 0 }

/-- A state for claim C6 whose p1 active knows only Slam. -/
def cex_acc_state : BattleState :=
  { turn := 2,
    p1 := { active := { demo_mon "gamma" 100 100 with moves := [demo_slam] },
            bench := [] },
    p2 := { active := demo_mon "delta" 100 60, bench := [] },
    field := {} }

/-- A moves table containing exactly the data of the fallback Tackle. -/
def demo_moves_tbl : List (String × MoveData) :=
  [("tackle",
    { name := "Tackle", type := "Normal", category := MoveCategory.PHYSICAL,
      power := 40, accuracy := 100, pp := 35 })]

/-- A species table entry whose derived stats coincide with the fallback
baseline (2 * (-5) + 110 = 100 and 2 * 47.5 + 5 = 100). -/
def phantom_species : SpeciesData :=
  { baseStats := { hp := -5, atk := 95/2, def_ := 95/2, spa := 95/2,
                   spd := 95/2, spe := 95/2 },
    types := ["Normal"], abilities := [""] }

/-- An engine whose tables do contain the species "phantom". -/
def e_lookup : BattleEngine :=
  { moves_data := demo_moves_tbl, pokemon_data := [("phantom", phantom_species)] }

/-- The Combatant built for "phantom" by the empty-table engine (the fallback
path, line 130). -/
def phantom_fb : Pokemon := e0.create_pokemon_from_species "phantom" 100

/-- The Combatant built for "phantom" by the populated-table engine (the
normal lookup path, lines 132-160). -/
def phantom_lk : Pokemon := e_lookup.create_pokemon_from_species "phantom" 100

/-- The opposing roster used to compare the two "phantom" battles. -/
def rival_team : List Pokemon := [demo_mon "rival" 1000 30]

/-- An engine whose type chart makes Normal moves hit Ghost targets for 0x. -/
def e_immune : BattleEngine :=
  { type_effectiveness := [("Normal", { no_effect := ["Ghost"] })] }

/-- A Ghost-type Combatant, immune to Normal moves under e_immune. -/
def ghost_mon : Pokemon := { demo_mon "spirit" 100 60 with types := ["Ghost"] }

/-- A state for claim C10: a Normal-type attacker facing the Ghost-type. -/
def cex_imm_state : BattleState :=
  { turn := 5,
    p1 := { active := demo_mon "att" 100 80, bench := [] },
    p2 := { active := ghost_mon, bench := [] },
    field := {} }

/-- A badly-poisoned Combatant with 4 max HP, for claim C7. -/
def bp_mon : Pokemon :=
  { demo_mon "tox" 4 10 with status := StatusCondition.BADLY_POISONED }

/-- The move action selecting Slam, for the accuracy counterexample. -/
def cex_slam_act : Action := Action.move "slam" 0

/-- A badly poisoned Combatant with max HP 8, the smallest max HP whose
badly-poisoned damage is strictly increasing from the first tick on. -/
def bp8_mon : Pokemon :=
  { demo_mon "toxo" 8 10 with status := StatusCondition.BADLY_POISONED }

/-! Bridge lemmas from the executable fraction type to Mathlib rationals. -/

theorem gcdFuel_eq (fuel : ℕ) : ∀ m n, m < fuel → gcdFuel fuel m n = Nat.gcd m n := by
  induction fuel with
  | zero => intro m n h; omega
  | succ f ih =>
      intro m n h
      by_cases hm : m = 0
      · subst hm; simp [gcdFuel]
      · have hpos : 0 < m := Nat.pos_of_ne_zero hm
        have h1 : n % m < f :=
          lt_of_lt_of_le (Nat.mod_lt _ hpos) (Nat.lt_succ_iff.mp h)
        simp only [gcdFuel, if_neg hm]
        rw [ih _ _ h1]
        exact (Nat.gcd_rec m n).symm

theorem gcdF_eq (m n : ℕ) : gcdF m n = Nat.gcd m n :=
  gcdFuel_eq (m + 1) m n (Nat.lt_succ_self m)

theorem mkQ_pos_spec (n d : ℤ) (hd : 0 < d) :
    0 < (mkQ n d).den ∧ toRat (mkQ n d) = (n : ℚ) / (d : ℚ) := by
  have hd0 : d ≠ 0 := ne_of_gt hd
  have hdlt : ¬ d < 0 := not_lt.mpr (le_of_lt hd)
  by_cases hn0 : n = 0
  · subst hn0
    simp only [mkQ, if_neg hd0, eq_self_iff_true, if_true]
    refine ⟨Int.one_pos, ?_⟩
    simp [toRat]
  have hg : ((gcdF n.natAbs d.natAbs : ℕ) : ℤ) = (Int.gcd n d : ℤ) := by
    rw [gcdF_eq]; rfl
  simp only [mkQ, if_neg hd0, if_neg hn0, if_neg hdlt, hg]
  set g : ℤ := ((Int.gcd n d : ℕ) : ℤ) with hgdef
  have hgd : g ∣ d := Int.gcd_dvd_right
  have hgn : g ∣ n := Int.gcd_dvd_left
  have hg0 : g ≠ 0 := by
    rw [hgdef]
    have : Int.gcd n d ≠ 0 := by
      intro h0
      exact hd0 (Int.gcd_eq_zero_iff.mp h0).2
    exact_mod_cast this
  obtain ⟨k, hk⟩ := hgn
  obtain ⟨l, hl⟩ := hgd
  have hnum : Int.ediv n g = k := by
    rw [hk]
    exact Int.mul_ediv_cancel_left _ hg0
  have hden : Int.ediv d g = l := by
    rw [hl]
    exact Int.mul_ediv_cancel_left _ hg0
  have hgpos : (0 : ℤ) < g := by
    rw [hgdef]
    exact lt_of_le_of_ne (Int.natCast_nonneg _) (by rw [hgdef] at hg0; exact Ne.symm hg0)
  have hlpos : 0 < l := by
    by_contra hle
    push_neg at hle
    have hdle : d ≤ 0 := hl ▸ mul_nonpos_of_nonneg_of_nonpos (le_of_lt hgpos) hle
    exact absurd hd (not_lt.mpr hdle)
  refine ⟨by simpa [hden] using hlpos, ?_⟩
  rw [toRat]
  simp only [hnum, hden]
  have hgq : ((g : ℤ) : ℚ) ≠ 0 := by exact_mod_cast hg0
  rw [hk, hl]
  push_cast
  rw [mul_div_mul_left _ _ hgq]

theorem mkQ_den_pos (n d : ℤ) : 0 < (mkQ n d).den := by
  by_cases hd : d = 0
  · simp only [mkQ, if_pos hd]
    exact Int.one_pos
  · rcases lt_or_gt_of_ne hd with hlt | hgt
    · have h := (mkQ_pos_spec (-n) (-d) (by omega)).1
      have heq : mkQ n d = mkQ (-n) (-d) := by
        by_cases hn0 : n = 0
        · subst hn0
          simp only [mkQ, if_neg hd, if_neg (by omega : ¬ (-d : ℤ) = 0), neg_zero,
            eq_self_iff_true, if_true]
        · simp only [mkQ, if_neg hd, if_neg (by omega : ¬ (-d : ℤ) = 0), if_neg hn0,
            if_neg (by simpa using hn0 : ¬ (-n : ℤ) = 0), if_pos hlt,
            if_neg (by omega : ¬ (-d : ℤ) < 0)]
      rw [heq]; exact h
    · exact (mkQ_pos_spec n d hgt).1

theorem toRat_mkQ (n d : ℤ) (hd : d ≠ 0) : toRat (mkQ n d) = (n : ℚ) / (d : ℚ) := by
  rcases lt_or_gt_of_ne hd with hlt | hgt
  · have heq : mkQ n d = mkQ (-n) (-d) := by
      by_cases hn0 : n = 0
      · subst hn0
        simp only [mkQ, if_neg hd, if_neg (by omega : ¬ (-d : ℤ) = 0), neg_zero,
          eq_self_iff_true, if_true]
      · simp only [mkQ, if_neg hd, if_neg (by omega : ¬ (-d : ℤ) = 0), if_neg hn0,
          if_neg (by simpa using hn0 : ¬ (-n : ℤ) = 0), if_pos hlt,
          if_neg (by omega : ¬ (-d : ℤ) < 0)]
    rw [heq, (mkQ_pos_spec (-n) (-d) (by omega)).2]
    push_cast
    rw [neg_div_neg_eq]
  · exact (mkQ_pos_spec n d hgt).2

theorem Pyq.add_def (a b : Pyq) :
    a + b = mkQ (a.num * b.den + b.num * a.den) (a.den * b.den) := rfl

theorem Pyq.sub_def (a b : Pyq) :
    a - b = mkQ (a.num * b.den - b.num * a.den) (a.den * b.den) := rfl

theorem Pyq.mul_def (a b : Pyq) :
    a * b = mkQ (a.num * b.num) (a.den * b.den) := rfl

theorem Pyq.div_def (a b : Pyq) :
    a / b = mkQ (a.num * b.den) (a.den * b.num) := rfl

theorem toRat_ofInt (n : ℤ) : toRat (Pyq.ofInt n) = (n : ℚ) := by
  simp [toRat, Pyq.ofInt]

theorem toRat_intCast (n : ℤ) : toRat ((n : ℤ) : Pyq) = (n : ℚ) := toRat_ofInt n

theorem toRat_mul (a b : Pyq) (ha : a.den ≠ 0) (hb : b.den ≠ 0) :
    toRat (a * b) = toRat a * toRat b := by
  rw [Pyq.mul_def, toRat_mkQ _ _ (mul_ne_zero ha hb), toRat, toRat]
  push_cast
  rw [div_mul_div_comm]

theorem Pyq.lt_iff (a b : Pyq) (ha : 0 < a.den) (hb : 0 < b.den) :
    a < b ↔ toRat a < toRat b := by
  show a.num * b.den < b.num * a.den ↔ _
  rw [toRat, toRat, div_lt_div_iff₀ (by exact_mod_cast ha) (by exact_mod_cast hb)]
  exact_mod_cast Iff.rfl

theorem Pyq.le_iff (a b : Pyq) (ha : 0 < a.den) (hb : 0 < b.den) :
    a ≤ b ↔ toRat a ≤ toRat b := by
  show a.num * b.den ≤ b.num * a.den ↔ _
  rw [toRat, toRat, div_le_div_iff₀ (by exact_mod_cast ha) (by exact_mod_cast hb)]
  exact_mod_cast Iff.rfl

theorem toRat_num_nonneg (q : Pyq) (hd : 0 < q.den) (h : 0 ≤ toRat q) : 0 ≤ q.num := by
  have hden : ((q.den : ℚ)) ≠ 0 := by exact_mod_cast ne_of_gt hd
  have := mul_nonneg h (le_of_lt (show (0:ℚ) < q.den by exact_mod_cast hd))
  rw [toRat, div_mul_cancel₀ _ hden] at this
  exact_mod_cast this

theorem pyInt_nonneg (q : Pyq) (hd : 0 < q.den) (h : 0 ≤ toRat q) : 0 ≤ pyInt q :=
  Int.tdiv_nonneg (toRat_num_nonneg q hd h) (le_of_lt hd)

theorem pyInt_eq_floor (q : Pyq) (hd : 0 < q.den) (h : 0 ≤ toRat q) :
    pyInt q = ⌊toRat q⌋ := by
  have hn : 0 ≤ q.num := toRat_num_nonneg q hd h
  have hm : q.den = ((q.den.toNat : ℕ) : ℤ) := (Int.toNat_of_nonneg (le_of_lt hd)).symm
  rw [pyInt, Int.tdiv_eq_ediv hn (le_of_lt hd), toRat, hm]
  push_cast
  exact (Rat.floor_intCast_div_natCast q.num q.den.toNat).symm

theorem mkQ_zero (d : ℤ) : mkQ 0 d = 0 := by
  by_cases hd : d = 0
  · simp only [mkQ, if_pos hd]
    rfl
  · simp only [mkQ, if_neg hd, eq_self_iff_true, if_true]
    rfl

theorem pyq_mul_zero (a : Pyq) : a * 0 = 0 := by
  rw [Pyq.mul_def]
  show mkQ (a.num * (0:ℤ)) (a.den * 1) = 0
  rw [mul_comm a.den 1, one_mul, mul_zero, mkQ_zero]

theorem pyq_zero_mul (a : Pyq) : 0 * a = 0 := by
  rw [Pyq.mul_def]
  show mkQ ((0:ℤ) * a.num) (1 * a.den) = 0
  rw [one_mul, zero_mul, mkQ_zero]

/-! Frame lemmas about the battle-state structure. -/

theorem get_set_self (s : BattleState) (pl : Player) (ps : PlayerState) :
    (s.set pl ps).get pl = ps := by
  cases pl <;> rfl

theorem get_set_other (s : BattleState) (pl : Player) (ps : PlayerState) :
    (s.set pl ps).get pl.other = s.get pl.other := by
  cases pl <;> rfl

theorem set_turn (s : BattleState) (pl : Player) (ps : PlayerState) :
    (s.set pl ps).turn = s.turn := by
  cases pl <;> rfl

theorem foldl_preserves {α β : Type} (P : α → Prop) (f : α → β → α)
    (hf : ∀ acc x, P acc → P (f acc x)) :
    ∀ (l : List β) (acc : α), P acc → P (l.foldl f acc) := by
  intro l
  induction l with
  | nil => intro acc h; exact h
  | cons x xs ih =>
      intro acc h
      exact ih _ (hf _ _ h)

theorem ame_secondary_frame (d : Pokemon) (s : BattleState) (fx : Effects) (r : Rng) :
    (ame_secondary d s fx r).1.hp = d.hp ∧
    (ame_secondary d s fx r).1.moves = d.moves ∧
    (ame_secondary d s fx r).1.max_hp = d.max_hp := by
  unfold ame_secondary
  rcases fx.secondary with _ | sec
  · exact ⟨rfl, rfl, rfl⟩
  · simp only [rand]
    repeat' split
    all_goals exact ⟨rfl, rfl, rfl⟩

theorem ame_status_frame (d : Pokemon) (fx : Effects) :
    (ame_status d fx).hp = d.hp ∧
    (ame_status d fx).moves = d.moves ∧
    (ame_status d fx).max_hp = d.max_hp := by
  unfold ame_status
  rcases fx.status with _ | sn
  · exact ⟨rfl, rfl, rfl⟩
  · repeat' split
    all_goals exact ⟨rfl, rfl, rfl⟩

theorem ame_hazard_frame (s : BattleState) (fx : Effects) :
    (ame_hazard s fx).turn = s.turn ∧
    (ame_hazard s fx).p1.active = s.p1.active ∧
    (ame_hazard s fx).p1.bench = s.p1.bench ∧
    (ame_hazard s fx).p2 = s.p2 := by
  unfold ame_hazard
  rcases fx.hazard with _ | ht
  · exact ⟨rfl, rfl, rfl, rfl⟩
  · repeat' split
    all_goals exact ⟨rfl, rfl, rfl, rfl⟩

theorem ame_screen_frame (s : BattleState) (fx : Effects) :
    (ame_screen s fx).turn = s.turn ∧
    (ame_screen s fx).p1.active = s.p1.active ∧
    (ame_screen s fx).p1.bench = s.p1.bench ∧
    (ame_screen s fx).p2 = s.p2 := by
  unfold ame_screen
  rcases fx.screen with _ | st
  · exact ⟨rfl, rfl, rfl, rfl⟩
  · repeat' split
    all_goals exact ⟨rfl, rfl, rfl, rfl⟩

theorem ame_heal_frame (a : Pokemon) (s : BattleState) (fx : Effects) :
    (ame_heal a s fx).1.moves = a.moves ∧
    (ame_heal a s fx).1.max_hp = a.max_hp := by
  unfold ame_heal
  rcases fx.heal with _ | hp
  · exact ⟨rfl, rfl⟩
  · exact ⟨rfl, rfl⟩

theorem apply_move_effects_frame (e : BattleEngine) (a d : Pokemon) (m : Move)
    (s : BattleState) (r : Rng) :
    (e.apply_move_effects a d m s r).2.2.1.turn = s.turn ∧
    (e.apply_move_effects a d m s r).2.2.1.p1.active = s.p1.active ∧
    (e.apply_move_effects a d m s r).2.2.1.p1.bench = s.p1.bench ∧
    (e.apply_move_effects a d m s r).2.2.1.p2 = s.p2 ∧
    (e.apply_move_effects a d m s r).2.1.hp = d.hp ∧
    (e.apply_move_effects a d m s r).2.1.moves = d.moves ∧
    (e.apply_move_effects a d m s r).1.moves = a.moves := by
  unfold BattleEngine.apply_move_effects
  split
  · exact ⟨rfl, rfl, rfl, rfl, rfl, rfl, rfl⟩
  · rcases hsec : ame_secondary d s (m.effects.getD {}) r with ⟨d1, log1, r1⟩
    have hs := ame_secondary_frame d s (m.effects.getD {}) r
    rw [hsec] at hs
    rcases hheal : ame_heal a (ame_screen (ame_hazard s (m.effects.getD {}))
        (m.effects.getD {})) (m.effects.getD {}) with ⟨a1, log2⟩
    have hh := ame_heal_frame a (ame_screen (ame_hazard s (m.effects.getD {}))
        (m.effects.getD {})) (m.effects.getD {})
    rw [hheal] at hh
    have hz := ame_hazard_frame s (m.effects.getD {})
    have hc := ame_screen_frame (ame_hazard s (m.effects.getD {})) (m.effects.getD {})
    have hst := ame_status_frame d1 (m.effects.getD {})
    simp only [hsec, hheal]
    refine ⟨?_, ?_, ?_, ?_, ?_, ?_, ?_⟩
    · rw [hc.1, hz.1]
    · rw [hc.2.1, hz.2.1]
    · rw [hc.2.2.1, hz.2.2.1]
    · rw [hc.2.2.2, hz.2.2.2]
    · rw [hst.1, hs.1]
    · rw [hst.2.1, hs.2.1]
    · exact hh.1

theorem execute_move_turn (e : BattleEngine) (s : BattleState) (pl : Player)
    (act : Action) (r : Rng) : (e.execute_move s pl act r).1.turn = s.turn := by
  simp only [BattleEngine.execute_move]
  rcases hf : (s.get pl).active.moves.find? (fun m => m.move_id == act.moveId) with _ | mv
  · simp only [hf]
  · simp only [hf]
    rcases hca : e.check_accuracy mv (s.get pl).active (s.get pl.other).active r with ⟨hit, r1⟩
    simp only [hca]
    split
    · rfl
    · split
      · rcases hcd : e.calculate_damage (s.get pl).active (s.get pl.other).active mv s r1
          with ⟨⟨dmg, crit, eff⟩, r2⟩
        simp only [hcd, rand]
        rcases hfx : e.apply_move_effects (s.get pl).active
            { (s.get pl.other).active with hp := max 0 ((s.get pl.other).active.hp - dmg) }
            mv s r2.tail with ⟨a1, d1, s1, log1, r3⟩
        have hframe := apply_move_effects_frame e (s.get pl).active
            { (s.get pl.other).active with hp := max 0 ((s.get pl.other).active.hp - dmg) }
            mv s r2.tail
        rw [hfx] at hframe
        simp only [hfx, set_turn]
        exact hframe.1
      · rcases hfx : e.apply_move_effects (s.get pl).active (s.get pl.other).active
            mv s r1 with ⟨a1, d1, s1, log1, r3⟩
        have hframe := apply_move_effects_frame e (s.get pl).active
            (s.get pl.other).active mv s r1
        rw [hfx] at hframe
        simp only [hfx, set_turn]
        exact hframe.1

theorem execute_switch_turn (e : BattleEngine) (s : BattleState) (pl : Player)
    (act : Action) : (e.execute_switch s pl act).1.turn = s.turn := by
  simp only [BattleEngine.execute_switch]
  split
  · simp only [set_turn]
  · rfl

theorem end_of_turn_step_turn (acc : BattleState × List BattleLogEntry) (pl : Player) :
    (end_of_turn_step acc pl).1.turn = acc.1.turn := by
  rcases acc with ⟨s, log⟩
  simp only [end_of_turn_step]
  split
  · rcases hsd : apply_status_damage (s.get pl).active with ⟨tk, dmg⟩
    simp only [hsd]
    split
    · simp only [set_turn]
    · simp only [set_turn]
  · rfl

theorem apply_end_of_turn_turn (e : BattleEngine) (s : BattleState) :
    (e.apply_end_of_turn_effects s).1.turn = s.turn := by
  simp only [BattleEngine.apply_end_of_turn_effects, List.foldl_cons, List.foldl_nil]
  rw [end_of_turn_step_turn, end_of_turn_step_turn]

theorem run_action_turn (e : BattleEngine) (acc : BattleState × List BattleLogEntry × Rng)
    (pa : Player × Action) : (e.run_action acc pa).1.turn = acc.1.turn := by
  rcases acc with ⟨s, log, r⟩
  rcases pa with ⟨pl, act⟩
  simp only [BattleEngine.run_action]
  split
  · rfl
  · rcases hcs : check_status_effects (s.get pl).active r with ⟨can, r1⟩
    simp only [hcs]
    split
    · rfl
    · match act with
      | Action.move m p =>
          simp only
          rcases hem : e.execute_move s pl (Action.move m p) r1 with ⟨s1, log1, r2⟩
          have := execute_move_turn e s pl (Action.move m p) r1
          rw [hem] at this
          simp only [hem]
          exact this
      | Action.switch i p =>
          simp only
          rcases hes : e.execute_switch s pl (Action.switch i p) with ⟨s1, log1⟩
          have := execute_switch_turn e s pl (Action.switch i p)
          rw [hes] at this
          simp only [hes]
          exact this

theorem simulate_turn_turn (e : BattleEngine) (s : BattleState) (a1 a2 : Action)
    (r : Rng) : (e.simulate_turn s a1 a2 r).1.turn = s.turn := by
  simp only [BattleEngine.simulate_turn]
  rcases ho : determine_action_order s a1 a2 r with ⟨ord, r1⟩
  simp only [ho]
  rcases hfold : ord.foldl e.run_action (s, [], r1) with ⟨s2, log2, r2⟩
  have hstep : ∀ (acc : BattleState × List BattleLogEntry × Rng) (pa : Player × Action),
      acc.1.turn = s.turn → (e.run_action acc pa).1.turn = s.turn := by
    intro acc pa hacc
    rw [run_action_turn]
    exact hacc
  have h1 : s2.turn = s.turn := by
    have h := foldl_preserves (fun acc => acc.1.turn = s.turn) e.run_action
      hstep ord (s, [], r1) rfl
    rw [hfold] at h
    exact h
  simp only [hfold]
  rcases heot : e.apply_end_of_turn_effects s2 with ⟨s3, log3⟩
  have h2 : s3.turn = s2.turn := by
    have h := apply_end_of_turn_turn e s2
    rw [heot] at h
    exact h
  simp only [heot]
  rw [h2, h1]

theorem run_turns_turn_eq (e : BattleEngine) :
    ∀ (n turn : ℕ) (s : BattleState) (log : List BattleLogEntry) (r : Rng),
      1 ≤ n →
      check_battle_end (e.run_turns n turn s log r).1 = false →
      (e.run_turns n turn s log r).1.turn = ((turn + n - 1 : ℕ) : ℤ) := by
  intro n
  induction n with
  | zero => intro turn s log r h; exact absurd h (by norm_num)
  | succ m ih =>
      intro turn s log r _ hend
      simp only [BattleEngine.run_turns] at hend ⊢
      by_cases hb : check_battle_end { s with turn := (turn : ℤ) } = true
      · rw [if_pos hb] at hend ⊢
        simp only at hend
        rw [hend] at hb
        exact absurd hb (by norm_num)
      · have hb' : check_battle_end { s with turn := (turn : ℤ) } = false :=
          Bool.eq_false_iff.mpr hb
        simp only [hb', Bool.false_eq_true, if_false] at hend ⊢
        rcases ha1 : e.get_random_action { s with turn := (turn : ℤ) } Player.p1 r
          with ⟨a1, r1⟩
        simp only [ha1] at hend ⊢
        rcases ha2 : e.get_random_action { s with turn := (turn : ℤ) } Player.p2 r1
          with ⟨a2, r2⟩
        simp only [ha2] at hend ⊢
        rcases hst : e.simulate_turn { s with turn := (turn : ℤ) } a1 a2 r2
          with ⟨s2, tl, r3⟩
        simp only [hst] at hend ⊢
        rcases Nat.eq_zero_or_pos m with hm0 | hm1
        · subst hm0
          simp only [BattleEngine.run_turns]
          have h2 : s2.turn = (turn : ℤ) := by
            have h := simulate_turn_turn e { s with turn := (turn : ℤ) } a1 a2 r2
            rw [hst] at h
            exact h
          rw [h2]
          norm_num
        · rw [ih (turn + 1) s2 (log ++ tl) r3 hm1 hend]
          congr 1
          omega

/-- C3 counterexample: a concrete battle that reaches the turn cap
(max_turns = 1) with both sides still having a living Combatant does not end
in a tie; one roster has two survivors, the other one, and the winner is
"p1". -/
theorem turn_cap_tie_false :
    (e0.simulate_battle cex_teamA cex_teamB 1 cex_rng).winner = "p1" ∧
    (e0.simulate_battle cex_teamA cex_teamB 1 cex_rng).winner ≠ "tie" ∧
    (e0.simulate_battle cex_teamA cex_teamB 1 cex_rng).turns = 1 ∧
    1 ≤ count_remaining_pokemon
      (e0.simulate_battle cex_teamA cex_teamB 1 cex_rng).final_state.p1 ∧
    1 ≤ count_remaining_pokemon
      (e0.simulate_battle cex_teamA cex_teamB 1 cex_rng).final_state.p2 := by
  refine ⟨by decide, by decide, by decide, by decide, by decide⟩

/-- C3 (amended): a battle that reaches the turn cap with both sides still
having at least one living Combatant has turn count equal to the cap, and its
winner is "tie" exactly when the two sides have equally many living
Combatants (otherwise the side with strictly more survivors wins). -/
theorem turn_cap_amended (e : BattleEngine) (t1 t2 : List Pokemon) (mt : ℕ) (r : Rng)
    (hmt : 1 ≤ mt)
    (h1 : 1 ≤ count_remaining_pokemon (e.simulate_battle t1 t2 mt r).final_state.p1)
    (h2 : 1 ≤ count_remaining_pokemon (e.simulate_battle t1 t2 mt r).final_state.p2) :
    (e.simulate_battle t1 t2 mt r).turns = (mt : ℤ) ∧
    ((e.simulate_battle t1 t2 mt r).winner = "tie" ↔
      count_remaining_pokemon (e.simulate_battle t1 t2 mt r).final_state.p1 =
        count_remaining_pokemon (e.simulate_battle t1 t2 mt r).final_state.p2) := by
  simp only [BattleEngine.simulate_battle] at h1 h2 ⊢
  rcases hrun : e.run_turns mt 1
      { turn := 0,
        p1 := { active := t1.headD (create_fallback_pokemon "" 100), bench := t1.tail }
        p2 := { active := t2.headD (create_fallback_pokemon "" 100), bench := t2.tail }
        field := {} } [] r with ⟨fs, lg, r3⟩
  simp only [hrun] at h1 h2 ⊢
  have hend : check_battle_end fs = false := by
    simp only [check_battle_end]
    simp only [decide_eq_false_iff_not]
    push_neg
    omega
  have hturn := run_turns_turn_eq e mt 1
      { turn := 0,
        p1 := { active := t1.headD (create_fallback_pokemon "" 100), bench := t1.tail }
        p2 := { active := t2.headD (create_fallback_pokemon "" 100), bench := t2.tail }
        field := {} } [] r hmt (by rw [hrun]; exact hend)
  rw [hrun] at hturn
  constructor
  · rw [hturn]
    congr 1
    omega
  · simp only [determine_winner]
    rcases Nat.lt_trichotomy (count_remaining_pokemon fs.p1)
        (count_remaining_pokemon fs.p2) with hlt | heq | hgt
    · rw [if_neg (by omega), if_pos (by omega)]
      constructor
      · intro h; exact absurd h (by decide)
      · intro h; omega
    · rw [if_neg (by omega), if_neg (by omega)]
      simp [heq]
    · rw [if_pos (by omega)]
      constructor
      · intro h; exact absurd h (by decide)
      · intro h; omega

/-- Witness for turn_cap_amended: a one-on-one battle of the same shape with
one survivor on each side at the cap ends as a tie after exactly one turn. -/
theorem turn_cap_amended_witness :
    (e0.simulate_battle [demo_mon "a1" 1000 50] cex_teamB 1 cex_rng).turns = (1 : ℤ) ∧
    ((e0.simulate_battle [demo_mon "a1" 1000 50] cex_teamB 1 cex_rng).winner = "tie" ↔
      count_remaining_pokemon
        (e0.simulate_battle [demo_mon "a1" 1000 50] cex_teamB 1 cex_rng).final_state.p1 =
        count_remaining_pokemon
          (e0.simulate_battle [demo_mon "a1" 1000 50] cex_teamB 1 cex_rng).final_state.p2) :=
  turn_cap_amended e0 [demo_mon "a1" 1000 50] cex_teamB 1 cex_rng (by norm_num)
    (by decide) (by decide)

theorem pyInt_zero : pyInt 0 = 0 := by decide

theorem pyq_intCast_zero : (((0 : ℤ)) : Pyq) = 0 := rfl

theorem calculate_damage_ge_one (e : BattleEngine) (a d : Pokemon) (m : Move)
    (bs : BattleState) (r : Rng) (h : m.category ≠ MoveCategory.STATUS) :
    1 ≤ ((e.calculate_damage a d m bs r).1).1 := by
  cases hcat : m.category with
  | STATUS => exact absurd hcat h
  | PHYSICAL =>
      simp only [BattleEngine.calculate_damage, hcat, rand, pyUniform]
      exact le_max_left 1 _
  | SPECIAL =>
      simp only [BattleEngine.calculate_damage, hcat, rand, pyUniform]
      exact le_max_left 1 _

theorem calculate_damage_immune (e : BattleEngine) (a d : Pokemon) (m : Move)
    (bs : BattleState) (r : Rng) (h : m.category ≠ MoveCategory.STATUS)
    (heff : e.calculate_type_effectiveness m.type d.types = 0) :
    ((e.calculate_damage a d m bs r).1).1 = 1 := by
  cases hcat : m.category with
  | STATUS => exact absurd hcat h
  | PHYSICAL =>
      simp only [BattleEngine.calculate_damage, hcat, rand, pyUniform, heff,
        pyq_mul_zero, pyq_zero_mul, pyInt_zero, pyq_intCast_zero, ite_self]
      rfl
  | SPECIAL =>
      simp only [BattleEngine.calculate_damage, hcat, rand, pyUniform, heff,
        pyq_mul_zero, pyq_zero_mul, pyInt_zero, pyq_intCast_zero, ite_self]
      rfl

/-- C1: determinism.  The engine draws every random number from the single
seeded stream threaded through it (the model of the process-global random
module), and takes no other hidden input, so two battles with equal rosters,
equal turn caps and equal RNG state produce byte-identical logs; likewise two
turns over equal states with identical submitted actions and equal RNG state
produce identical results. -/
theorem simulate_battle_deterministic
    (e : BattleEngine) (t1 t2 t1h t2h : List Pokemon) (mt mth : ℕ) (r rh : Rng)
    (s sh : BattleState) (a1 a2 a1h a2h : Action) (r2 r2h : Rng) :
    (t1 = t1h → t2 = t2h → mt = mth → r = rh →
      (e.simulate_battle t1 t2 mt r).battle_log =
        (e.simulate_battle t1h t2h mth rh).battle_log) ∧
    (s = sh → a1 = a1h → a2 = a2h → r2 = r2h →
      e.simulate_turn s a1 a2 r2 = e.simulate_turn sh a1h a2h r2h) := by
  constructor
  · intro h1 h2 h3 h4
    subst h1
    subst h2
    subst h3
    subst h4
    rfl
  · intro h1 h2 h3 h4
    subst h1
    subst h2
    subst h3
    subst h4
    rfl

/-- Witness for simulate_battle_deterministic at a concrete battle. -/
theorem simulate_battle_deterministic_witness :
    (e0.simulate_battle cex_teamA cex_teamB 1 cex_rng).battle_log =
      (e0.simulate_battle cex_teamA cex_teamB 1 cex_rng).battle_log :=
  (simulate_battle_deterministic e0 cex_teamA cex_teamB cex_teamA cex_teamB 1 1
    cex_rng cex_rng cex_par_state cex_par_state cex_act cex_act cex_act cex_act
    [] []).1 rfl rfl rfl rfl

/-- C2 counterexample: with equal priorities, a paralyzed but nominally
faster p1 (speed 100, paralyzed) against p2 (speed 60), no tailwind and no
Trick Room, the engine sends p1 first (it compares only speed stat times
boost multiplier), while the claimed order law (paralysis quarters effective
speed) demands p2 first. -/
theorem turn_order_claim_false :
    determine_action_order cex_par_state cex_act cex_act [] =
      ([(Player.p1, cex_act), (Player.p2, cex_act)], []) ∧
    spec_claimed_order cex_par_state cex_act cex_act [] =
      ([(Player.p2, cex_act), (Player.p1, cex_act)], []) ∧
    spec_effective_speed cex_par_state Player.p1 <
      spec_effective_speed cex_par_state Player.p2 := by
  refine ⟨by decide, by decide, by decide⟩

/-- C2 (amended): the engine orders actions by priority tier first, then by
effective speed computed as speed stat times boost multiplier only (paralysis,
tailwind and Trick Room are not consulted), then by the seeded random
tie-break; this is exactly the amended order law. -/
theorem turn_order_amended (s : BattleState) (a1 a2 : Action) (r : Rng) :
    determine_action_order s a1 a2 r = spec_amended_order s a1 a2 r := rfl

/-- C5: the action-time paralysis check is inverted.  For a paralyzed
Combatant the code returns "may act" exactly when the draw u is below 0.25,
i.e. the action goes ahead with probability 25% and is PREVENTED on the
complementary set [1/4, 1) of measure 75%, contradicting the claimed 25%
prevention chance (and the comment on the source line). -/
theorem paralysis_prevention_inverted (p : Pokemon) (u : Pyq) (r : Rng)
    (h : p.status = StatusCondition.PARALYSIS) :
    check_status_effects p (u :: r) = (decide (u < 1/4), r) ∧
    (0 < u.den → ((check_status_effects p (u :: r)).1 = false ↔ 1/4 ≤ toRat u)) := by
  have h1 : check_status_effects p (u :: r) = (decide (u < 25/100), r) := by
    simp only [check_status_effects, h, rand]
    rfl
  have h25 : (25/100 : Pyq) = 1/4 := by decide
  constructor
  · rw [h1, h25]
  · intro hden
    rw [h1]
    simp only [decide_eq_false_iff_not]
    rw [h25, Pyq.lt_iff u (1/4) hden (by decide)]
    rw [show toRat (1/4 : Pyq) = (1/4 : ℚ) from by
      rw [show (1/4 : Pyq) = ⟨1, 4⟩ from by decide]
      norm_num [toRat]]
    exact not_lt

/-- Witness for paralysis_prevention_inverted: with the draw u = 1/2 the
paralyzed Combatant is prevented from acting, although 1/2 is outside the
claimed prevention interval of measure 0.25. -/
theorem paralysis_prevention_inverted_witness :
    check_status_effects { demo_mon "w" 100 50 with status := StatusCondition.PARALYSIS }
        ((1 : Pyq)/2 :: []) = (decide ((1 : Pyq)/2 < 1/4), []) ∧
    (0 < ((1 : Pyq)/2).den →
      ((check_status_effects
          { demo_mon "w" 100 50 with status := StatusCondition.PARALYSIS }
          ((1 : Pyq)/2 :: [])).1 = false ↔
        1/4 ≤ toRat ((1 : Pyq)/2))) :=
  paralysis_prevention_inverted _ _ _ rfl

/-- C9 counterexample: the fallback is not distinguishable in the battle log.
The unknown species "phantom" is built by the fallback path on the
empty-table engine, a populated table builds a different (lookup-path)
Combatant for the same name, yet the two produce byte-identical, nonempty
battle logs. -/
theorem fallback_not_log_distinguishable :
    e0.create_pokemon_from_species "phantom" 100 = create_fallback_pokemon "phantom" 100 ∧
    e_lookup.create_pokemon_from_species "phantom" 100 ≠
      create_fallback_pokemon "phantom" 100 ∧
    (e0.simulate_battle [phantom_fb] rival_team 1 cex_rng).battle_log =
      (e0.simulate_battle [phantom_lk] rival_team 1 cex_rng).battle_log ∧
    (e0.simulate_battle [phantom_fb] rival_team 1 cex_rng).battle_log ≠ [] := by
  refine ⟨by decide, by decide, by decide, by decide⟩

/-- C9 (amended): an unknown species identifier falls back to the documented
baseline Combatant (100 HP and stats, Normal type, the single move Tackle)
instead of failing, but nothing marks the fallback in the battle log. -/
theorem unknown_species_fallback (e : BattleEngine) (species : String) (level : ℤ)
    (h : lookupTable e.pokemon_data (pyReplace (pyLower species) " " "-") =
      Option.none) :
    e.create_pokemon_from_species species level = create_fallback_pokemon species level ∧
    (create_fallback_pokemon species level).hp = 100 ∧
    (create_fallback_pokemon species level).max_hp = 100 ∧
    (create_fallback_pokemon species level).types = ["Normal"] ∧
    (create_fallback_pokemon species level).moves.length = 1 := by
  refine ⟨?_, rfl, rfl, rfl, rfl⟩
  simp only [BattleEngine.create_pokemon_from_species, h]

/-- Witness for unknown_species_fallback at the concrete species "phantom"
against the empty-table engine. -/
theorem unknown_species_fallback_witness :
    e0.create_pokemon_from_species "phantom" 100 =
      create_fallback_pokemon "phantom" 100 ∧
    (create_fallback_pokemon "phantom" 100).hp = 100 ∧
    (create_fallback_pokemon "phantom" 100).max_hp = 100 ∧
    (create_fallback_pokemon "phantom" 100).types = ["Normal"] ∧
    (create_fallback_pokemon "phantom" 100).moves.length = 1 :=
  unknown_species_fallback e0 "phantom" 100 rfl

/-- C10 (implicit): minimum damage overrides type immunity.  Any non-status
move deals at least 1 damage, a move whose type-effectiveness against the
defender is 0 deals exactly 1 (because the final damage is max(1, computed)),
and a connecting always-hit damaging move against a type-immune defender
still costs the defender 1 HP. -/
theorem min_damage_overrides_immunity
    (e : BattleEngine) (a d : Pokemon) (m : Move) (bs : BattleState) (r : Rng)
    (s : BattleState) (player : Player) (action : Action) (mv : Move) (r2 : Rng) :
    (m.category ≠ MoveCategory.STATUS → 1 ≤ ((e.calculate_damage a d m bs r).1).1) ∧
    (m.category ≠ MoveCategory.STATUS →
      e.calculate_type_effectiveness m.type d.types = 0 →
      ((e.calculate_damage a d m bs r).1).1 = 1) ∧
    ((s.get player).active.moves.find? (fun mm => mm.move_id == action.moveId) =
        Option.some mv →
      mv.accuracy = 100 →
      mv.category ≠ MoveCategory.STATUS →
      e.calculate_type_effectiveness mv.type (s.get player.other).active.types = 0 →
      ((e.execute_move s player action r2).1.get player.other).active.hp =
        max 0 ((s.get player.other).active.hp - 1)) := by
  refine ⟨fun h => calculate_damage_ge_one e a d m bs r h,
          fun h heff => calculate_damage_immune e a d m bs r h heff, ?_⟩
  intro hfind hacc hcat heff
  simp only [BattleEngine.execute_move, hfind]
  have hca : e.check_accuracy mv (s.get player).active (s.get player.other).active r2 =
      (true, r2) := by
    simp only [BattleEngine.check_accuracy, hacc, eq_self_iff_true, if_true]
  simp only [hca]
  have hbne : (mv.category != MoveCategory.STATUS) = true := bne_iff_ne.mpr hcat
  simp only [Bool.not_true, Bool.false_eq_true, if_false, hbne, if_true]
  rcases hcd : e.calculate_damage (s.get player).active (s.get player.other).active mv s r2
    with ⟨⟨dmg, crit, eff⟩, r3⟩
  have hdmg : dmg = 1 := by
    have hh := calculate_damage_immune e (s.get player).active
      (s.get player.other).active mv s r2 hcat heff
    rw [hcd] at hh
    exact hh
  simp only [hcd, rand]
  subst hdmg
  rcases hfx : e.apply_move_effects (s.get player).active
      { (s.get player.other).active with
        hp := max 0 ((s.get player.other).active.hp - 1) } mv s r3.tail
    with ⟨a1, d1, s1, log1, r4⟩
  have hframe := apply_move_effects_frame e (s.get player).active
      { (s.get player.other).active with
        hp := max 0 ((s.get player.other).active.hp - 1) } mv s r3.tail
  rw [hfx] at hframe
  simp only [hfx]
  rw [get_set_self]
  exact hframe.2.2.2.2.1

/-- Witness for min_damage_overrides_immunity: a Normal Tackle against the
Ghost-type under the immunity type chart deals exactly 1 damage and leaves
the defender at 99 of 100 HP. -/
theorem min_damage_overrides_immunity_witness :
    (demo_tackle.category ≠ MoveCategory.STATUS →
      1 ≤ ((e_immune.calculate_damage (demo_mon "att" 100 80) ghost_mon demo_tackle
        cex_imm_state [1/2, 0]).1).1) ∧
    (demo_tackle.category ≠ MoveCategory.STATUS →
      e_immune.calculate_type_effectiveness demo_tackle.type ghost_mon.types = 0 →
      ((e_immune.calculate_damage (demo_mon "att" 100 80) ghost_mon demo_tackle
        cex_imm_state [1/2, 0]).1).1 = 1) ∧
    ((cex_imm_state.get Player.p1).active.moves.find?
        (fun mm => mm.move_id == cex_act.moveId) = Option.some demo_tackle →
      demo_tackle.accuracy = 100 →
      demo_tackle.category ≠ MoveCategory.STATUS →
      e_immune.calculate_type_effectiveness demo_tackle.type
        (cex_imm_state.get Player.p1.other).active.types = 0 →
      ((e_immune.execute_move cex_imm_state Player.p1 cex_act [1/2, 0, 0]).1.get
          Player.p1.other).active.hp =
        max 0 ((cex_imm_state.get Player.p1.other).active.hp - 1)) :=
  min_damage_overrides_immunity e_immune (demo_mon "att" 100 80) ghost_mon demo_tackle
    cex_imm_state [1/2, 0] cex_imm_state Player.p1 cex_act demo_tackle [1/2, 0, 0]

/-- The on-switch-in ability pass of the enhanced engine never changes any
active Combatant HP: the only firing branch (lowers_attack) touches boosts,
and the heal_on_switch and contact_damage branches require triggers other
than "on_switch_in". -/
theorem apply_ability_effects_switch_in_hp (enh : EnhancedBattleEngine)
    (pk : Pokemon) (s : BattleState) (pl : Player) :
    ((enh.apply_ability_effects pk s "on_switch_in").1.get pl).active.hp =
      (s.get pl).active.hp := by
  simp only [EnhancedBattleEngine.apply_ability_effects]
  rcases hga : enh.get_ability_data pk.ability with _ | ad
  · rfl
  · simp only
    split
    · split
      · by_cases hpk : (pk == s.p1.active) = true
        · simp only [hpk, if_true]
          cases pl <;> rfl
        · simp only [hpk, Bool.false_eq_true, if_false]
          cases pl <;> rfl
      · split
        · rename_i hcond
          simp only [Bool.and_eq_true] at hcond
          exact absurd hcond.2 (by decide)
        · split
          · rename_i hcond
            simp only [Bool.and_eq_true] at hcond
            exact absurd hcond.2 (by decide)
          · rfl
    · rfl

/-- C4 (code bug): no hazard damage is applied on switch-in by either engine.
The basic execute_switch only swaps and logs (the incoming active is exactly
the former bench entry, untouched), the enhanced execute_switch additionally
fires switch-in abilities which never change the incoming active HP, and on
the concrete failing input (Fire-type, no item, stealth rock plus two spikes
layers up) the switched-in Combatant keeps all 200 of its 200 HP where the
spec demands a 75 HP (37.5%) loss. -/
theorem switch_in_applies_no_hazard_damage
    (e : BattleEngine) (enh : EnhancedBattleEngine) (s s2 : BattleState)
    (pl pl2 : Player) (act act2 : Action)
    (hidx : act.pokemonIdx < (s.get pl).bench.length)
    (hidx2 : act2.pokemonIdx < (s2.get pl2).bench.length) :
    ((e.execute_switch s pl act).1.get pl).active =
      (s.get pl).bench.getD act.pokemonIdx (s.get pl).active ∧
    (∀ en ∈ (e.execute_switch s pl act).2, en.damage = 0 ∧ en.action = "switch") ∧
    ((enh.execute_switch s2 pl2 act2).1.get pl2).active.hp =
      ((s2.get pl2).bench.getD act2.pokemonIdx (s2.get pl2).active).hp ∧
    (∀ en ∈ (enh.execute_switch s2 pl2 act2).2, en.damage = 0) ∧
    ((enh0.execute_switch cex_hazard_state Player.p1 cex_switch_act).1.get
        Player.p1).active.hp = 200 ∧
    ((e0.execute_switch cex_hazard_state Player.p1 cex_switch_act).1.get
        Player.p1).active.hp = 200 := by
  refine ⟨?_, ?_, ?_, ?_, by decide, by decide⟩
  · simp only [BattleEngine.execute_switch, if_pos hidx]
    rw [get_set_self]
  · simp only [BattleEngine.execute_switch, if_pos hidx]
    intro en hen
    simp only [List.mem_singleton] at hen
    subst hen
    exact ⟨rfl, rfl⟩
  · simp only [EnhancedBattleEngine.execute_switch, if_pos hidx2]
    rw [apply_ability_effects_switch_in_hp, get_set_self]
  · simp only [EnhancedBattleEngine.execute_switch, if_pos hidx2]
    intro en hen
    have hgen : ∀ (st : BattleState) (pk : Pokemon),
        ∀ en2 ∈ (enh.apply_ability_effects pk st "on_switch_in").2,
          en2.damage = 0 := by
      intro st pk en2 hen2
      simp only [EnhancedBattleEngine.apply_ability_effects] at hen2
      rcases hga : enh.get_ability_data pk.ability with _ | ad
      · rw [hga] at hen2; cases hen2
      · rw [hga] at hen2
        simp only at hen2
        split at hen2
        · split at hen2
          · split at hen2 <;> simp_all
          · split at hen2
            · rename_i hcond
              simp only [Bool.and_eq_true] at hcond
              exact absurd hcond.2 (by decide)
            · split at hen2
              · rename_i hcond
                simp only [Bool.and_eq_true] at hcond
                exact absurd hcond.2 (by decide)
              · cases hen2
        · cases hen2
    simp only [List.mem_append, List.mem_singleton] at hen
    rcases hen with hen | hen
    · subst hen; rfl
    · exact hgen _ _ en hen

/-- Witness for switch_in_applies_no_hazard_damage at the concrete hazard
state (bench index 0 on both engines). -/
theorem switch_in_applies_no_hazard_damage_witness :
    ((e0.execute_switch cex_hazard_state Player.p1 cex_switch_act).1.get
        Player.p1).active =
      (cex_hazard_state.get Player.p1).bench.getD cex_switch_act.pokemonIdx
        (cex_hazard_state.get Player.p1).active ∧
    (∀ en ∈ (e0.execute_switch cex_hazard_state Player.p1 cex_switch_act).2,
      en.damage = 0 ∧ en.action = "switch") ∧
    ((enh0.execute_switch cex_hazard_state Player.p1 cex_switch_act).1.get
        Player.p1).active.hp =
      ((cex_hazard_state.get Player.p1).bench.getD cex_switch_act.pokemonIdx
        (cex_hazard_state.get Player.p1).active).hp ∧
    (∀ en ∈ (enh0.execute_switch cex_hazard_state Player.p1 cex_switch_act).2,
      en.damage = 0) ∧
    ((enh0.execute_switch cex_hazard_state Player.p1 cex_switch_act).1.get
        Player.p1).active.hp = 200 ∧
    ((e0.execute_switch cex_hazard_state Player.p1 cex_switch_act).1.get
        Player.p1).active.hp = 200 :=
  switch_in_applies_no_hazard_damage e0 enh0 cex_hazard_state cex_hazard_state
    Player.p1 Player.p1 cex_switch_act cex_switch_act (by decide) (by decide)

/-- C6 (code bug): when a move misses, the accuracy_roll recorded in the log
entry is a fresh random draw made after the hit decision, not the draw the
hit decision compared against the accuracy threshold.  With stream
u1 :: u2 :: r, the decision consumes u1 and the missed entry logs u2. -/
theorem accuracy_roll_logged_is_fresh_draw
    (e : BattleEngine) (s : BattleState) (player : Player) (action : Action)
    (mv : Move) (u1 u2 : Pyq) (r : Rng)
    (hfind : (s.get player).active.moves.find? (fun m => m.move_id == action.moveId) =
        Option.some mv)
    (hacc : mv.accuracy ≠ 100)
    (hmiss : (e.check_accuracy mv (s.get player).active (s.get player.other).active
        (u1 :: u2 :: r)).1 = false) :
    e.execute_move s player action (u1 :: u2 :: r) =
      (s, [{ turn := s.turn, player := player.str, action := "move",
             details := [("move", DetailValue.s mv.name),
                         ("target", DetailValue.s (s.get player.other).active.species)],
             result := "missed", accuracy_roll := u2 }], r) := by
  have hca : e.check_accuracy mv (s.get player).active (s.get player.other).active
      (u1 :: u2 :: r) = (false, u2 :: r) := by
    simp only [BattleEngine.check_accuracy, if_neg hacc, rand, List.headD_cons,
      List.tail_cons] at hmiss ⊢
    rw [hmiss]
  simp only [BattleEngine.execute_move, hfind, hca, Bool.not_false, if_true, rand,
    List.headD_cons, List.tail_cons]

/-- Witness for accuracy_roll_logged_is_fresh_draw: Slam (75 accuracy) with
stream [9/10, 123/1000] misses on the decision draw 9/10 but logs 123/1000. -/
theorem accuracy_roll_logged_is_fresh_draw_witness :
    e0.execute_move cex_acc_state Player.p1 cex_slam_act ((9/10 : Pyq) :: (123/1000 : Pyq) :: []) =
      (cex_acc_state,
       [{ turn := cex_acc_state.turn, player := Player.p1.str, action := "move",
          details := [("move", DetailValue.s demo_slam.name),
                      ("target",
                       DetailValue.s (cex_acc_state.get Player.p1.other).active.species)],
          result := "missed", accuracy_roll := (123/1000 : Pyq) }], []) :=
  accuracy_roll_logged_is_fresh_draw e0 cex_acc_state Player.p1 cex_slam_act demo_slam
    (9/10) (123/1000) [] (by decide) (by decide) (by decide)

/-- Badly-poisoned branch of apply_status_damage: the tick increments the
persistence counter first and then deals the truncated 1/8 × max_hp × turns
damage. -/
theorem apply_status_damage_bp (p : Pokemon)
    (hst : p.status = StatusCondition.BADLY_POISONED) :
    apply_status_damage p =
      ({ p with
         status_turns := p.status_turns + 1,
         hp := max 0 (p.hp -
           pyInt ((p.max_hp : Pyq) * (1/8) * ((p.status_turns + 1 : ℤ) : Pyq))) },
       pyInt ((p.max_hp : Pyq) * (1/8) * ((p.status_turns + 1 : ℤ) : Pyq))) := by
  simp only [apply_status_damage, hst]
  rfl

/-- The engine expression max_hp × 0.125 × turns represents exactly the
rational m/8 × t. -/
theorem toRat_bp_expr (m t : ℤ) :
    toRat ((m : Pyq) * (1/8) * (t : Pyq)) = (m : ℚ) * (1/8) * (t : ℚ) := by
  have h1 : ((m : Pyq) * (1/8 : Pyq)).den ≠ 0 :=
    ne_of_gt (by rw [Pyq.mul_def]; exact mkQ_den_pos _ _)
  rw [toRat_mul _ _ h1 (by exact one_ne_zero),
    toRat_mul _ _ (by exact one_ne_zero) (by decide), toRat_intCast, toRat_intCast]
  rw [show (1/8 : Pyq) = (⟨1, 8⟩ : Pyq) from by decide]
  norm_num [toRat]

/-- The truncated badly-poisoned damage is the floor of the exact value. -/
theorem pyInt_bp (m t : ℤ) (hm : 0 ≤ m) (ht : 0 ≤ t) :
    pyInt ((m : Pyq) * (1/8) * (t : Pyq)) = ⌊(m : ℚ) * (1/8) * (t : ℚ)⌋ := by
  have hden : 0 < ((m : Pyq) * (1/8) * (t : Pyq)).den := by
    rw [Pyq.mul_def]
    exact mkQ_den_pos _ _
  have hnn : 0 ≤ toRat ((m : Pyq) * (1/8) * (t : Pyq)) := by
    rw [toRat_bp_expr]
    exact mul_nonneg (mul_nonneg (by exact_mod_cast hm) (by norm_num))
      (by exact_mod_cast ht)
  rw [pyInt_eq_floor _ hden hnn, toRat_bp_expr]

/-- C7 counterexample: at max HP 4 the first badly-poisoned tick deals 0,
not the claimed exact 1/8 × 4 × 1 = 1/2, and the second and third ticks both
deal 1, refuting strict per-tick increase for every max HP value. -/
theorem badly_poisoned_escalation_claim_false :
    ((apply_status_damage bp_mon).2 : Pyq) ≠
      (bp_mon.max_hp : Pyq) * (1/8) * ((bp_mon.status_turns + 1 : ℤ) : Pyq) ∧
    (apply_status_damage (apply_status_damage (apply_status_damage bp_mon).1).1).2 =
      (apply_status_damage (apply_status_damage bp_mon).1).2 := by
  decide

/-- C7 (amended): a badly-poisoned tick deals the floor of
1/8 × max HP × turns-elapsed-including-this-tick, increments the persistence
counter while keeping the status, and the per-tick damage is strictly
increasing across consecutive ticks once max HP is at least 8 (the floor
makes smaller max HP values repeat). -/
theorem badly_poisoned_escalation_amended (p : Pokemon)
    (hst : p.status = StatusCondition.BADLY_POISONED)
    (hm : 0 ≤ p.max_hp) (ht : 0 ≤ p.status_turns) :
    (apply_status_damage p).2 =
      ⌊(p.max_hp : ℚ) * (1/8) * ((p.status_turns + 1 : ℤ) : ℚ)⌋ ∧
    (apply_status_damage p).1.status = StatusCondition.BADLY_POISONED ∧
    (apply_status_damage p).1.status_turns = p.status_turns + 1 ∧
    (8 ≤ p.max_hp →
      (apply_status_damage p).2 <
        (apply_status_damage (apply_status_damage p).1).2) := by
  have h1 := apply_status_damage_bp p hst
  have hstat1 : (apply_status_damage p).1.status = StatusCondition.BADLY_POISONED := by
    rw [h1]
    exact hst
  have hturn1 : (apply_status_damage p).1.status_turns = p.status_turns + 1 := by
    rw [h1]
  have hmax1 : (apply_status_damage p).1.max_hp = p.max_hp := by
    rw [h1]
  have hd1 : (apply_status_damage p).2 =
      ⌊(p.max_hp : ℚ) * (1/8) * ((p.status_turns + 1 : ℤ) : ℚ)⌋ := by
    rw [h1]
    exact pyInt_bp p.max_hp (p.status_turns + 1) hm (by omega)
  have hd2 : (apply_status_damage (apply_status_damage p).1).2 =
      ⌊(p.max_hp : ℚ) * (1/8) * ((p.status_turns + 1 + 1 : ℤ) : ℚ)⌋ := by
    have h2 := apply_status_damage_bp (apply_status_damage p).1 hstat1
    rw [h2, hturn1, hmax1]
    exact pyInt_bp p.max_hp (p.status_turns + 1 + 1) hm (by omega)
  refine ⟨hd1, hstat1, hturn1, fun h8 => ?_⟩
  rw [hd1, hd2]
  have hsplit : ((p.status_turns + 1 + 1 : ℤ) : ℚ) =
      ((p.status_turns + 1 : ℤ) : ℚ) + 1 := by
    push_cast
    ring
  rw [hsplit]
  have h18 : (1 : ℚ) ≤ (p.max_hp : ℚ) * (1/8) := by
    have h8q : (8 : ℚ) ≤ (p.max_hp : ℚ) := by exact_mod_cast h8
    linarith
  have hexp : (p.max_hp : ℚ) * (1/8) * (((p.status_turns + 1 : ℤ) : ℚ) + 1) =
      (p.max_hp : ℚ) * (1/8) * ((p.status_turns + 1 : ℤ) : ℚ) +
        (p.max_hp : ℚ) * (1/8) := by
    ring
  have hy : (p.max_hp : ℚ) * (1/8) * ((p.status_turns + 1 : ℤ) : ℚ) + 1 ≤
      (p.max_hp : ℚ) * (1/8) * (((p.status_turns + 1 : ℤ) : ℚ) + 1) := by
    rw [hexp]
    linarith
  calc ⌊(p.max_hp : ℚ) * (1/8) * ((p.status_turns + 1 : ℤ) : ℚ)⌋
      < ⌊(p.max_hp : ℚ) * (1/8) * ((p.status_turns + 1 : ℤ) : ℚ)⌋ + 1 := lt_add_one _
    _ = ⌊(p.max_hp : ℚ) * (1/8) * ((p.status_turns + 1 : ℤ) : ℚ) + 1⌋ :=
        (Int.floor_add_one _).symm
    _ ≤ ⌊(p.max_hp : ℚ) * (1/8) * (((p.status_turns + 1 : ℤ) : ℚ) + 1)⌋ :=
        Int.floor_le_floor hy

/-- Witness for badly_poisoned_escalation_amended at the badly poisoned
Combatant with max HP 8 and zero elapsed status turns. -/
theorem badly_poisoned_escalation_amended_witness :
    (apply_status_damage bp8_mon).2 =
      ⌊(bp8_mon.max_hp : ℚ) * (1/8) * ((bp8_mon.status_turns + 1 : ℤ) : ℚ)⌋ ∧
    (apply_status_damage bp8_mon).1.status = StatusCondition.BADLY_POISONED ∧
    (apply_status_damage bp8_mon).1.status_turns = bp8_mon.status_turns + 1 ∧
    (8 ≤ bp8_mon.max_hp →
      (apply_status_damage bp8_mon).2 <
        (apply_status_damage (apply_status_damage bp8_mon).1).2) :=
  badly_poisoned_escalation_amended bp8_mon rfl (by decide) (by decide)

/-- A move with no effects entry trivially satisfies the heal well-formedness
condition. -/
theorem MoveHealOk_of_none (m : Move) (h : m.effects = Option.none) : MoveHealOk m := by
  intro fx q hfx _
  rw [h] at hfx
  exact Option.noConfusion hfx

/-- A heal amount computed as max_hp times a nonnegative fraction is
nonnegative. -/
theorem pyInt_mul_nonneg (m : ℤ) (q : Pyq) (hm : 0 ≤ m) (hq : 0 ≤ toRat q) :
    0 ≤ pyInt ((m : Pyq) * q) := by
  have hden : 0 < ((m : Pyq) * q).den := by
    rw [Pyq.mul_def]
    exact mkQ_den_pos _ _
  apply pyInt_nonneg _ hden
  by_cases hqd : q.den = 0
  · have hz : (m : Pyq) * q = mkQ ((m : Pyq).num * q.num) 0 := by
      rw [Pyq.mul_def, hqd, mul_zero]
    rw [hz]
    simp [mkQ, toRat]
  · rw [toRat_mul _ _ (by exact one_ne_zero) hqd, toRat_intCast]
    exact mul_nonneg (by exact_mod_cast hm) hq

/-- Dropping the Sp.Def stage by one, clamped at -6, keeps boosts in range. -/
theorem boosts_valid_spd_drop (b : Boosts) (hb : BoostsValid b) :
    BoostsValid { b with spd := max (-6) (b.spd - 1) } := by
  obtain ⟨a1, a2, a3, a4, a5, a6, a7, a8, a9, a10, a11, a12, a13, a14⟩ := hb
  exact ⟨a1, a2, a3, a4, a5, a6, le_max_left _ _,
    show max (-6) (b.spd - 1) ≤ 6 from by omega, a9, a10, a11, a12, a13, a14⟩

/-- The secondary-effect block preserves Combatant validity. -/
theorem ame_secondary_valid (d : Pokemon) (s : BattleState) (fx : Effects) (r : Rng)
    (hd : PokemonValid d) : PokemonValid (ame_secondary d s fx r).1 := by
  unfold ame_secondary
  rcases fx.secondary with _ | sec
  · exact hd
  · simp only [rand]
    obtain ⟨h1, h2, h3, hb⟩ := hd
    repeat' split
    all_goals first
      | exact ⟨h1, h2, h3, hb⟩
      | exact ⟨h1, h2, h3, boosts_valid_spd_drop d.boosts hb⟩

/-- The status block preserves Combatant validity. -/
theorem ame_status_valid (d : Pokemon) (fx : Effects) (hd : PokemonValid d) :
    PokemonValid (ame_status d fx) := by
  unfold ame_status
  rcases fx.status with _ | sn
  · exact hd
  · obtain ⟨h1, h2, h3, hb⟩ := hd
    repeat' split
    all_goals first
      | exact ⟨h1, h2, h3, hb⟩
      | exact ⟨h1, h2, le_refl 0, hb⟩

/-- The heal block preserves Combatant validity when the heal fraction is
nonnegative: healing is clamped above by max HP and cannot lower HP. -/
theorem ame_heal_valid (a : Pokemon) (s : BattleState) (fx : Effects)
    (ha : PokemonValid a) (hq : ∀ q, fx.heal = Option.some q → 0 ≤ toRat q) :
    PokemonValid (ame_heal a s fx).1 := by
  unfold ame_heal
  rcases hh : fx.heal with _ | q
  · exact ha
  · obtain ⟨h1, h2, h3, hb⟩ := ha
    have hq0 : 0 ≤ pyInt ((a.max_hp : Pyq) * q) :=
      pyInt_mul_nonneg a.max_hp q (by omega) (hq q hh)
    refine ⟨?_, ?_, h3, hb⟩
    · show 0 ≤ min a.max_hp (a.hp + pyInt ((a.max_hp : Pyq) * q))
      omega
    · show min a.max_hp (a.hp + pyInt ((a.max_hp : Pyq) * q)) ≤ a.max_hp
      omega

/-- apply_move_effects preserves validity of both the attacker (heal block)
and the defender (secondary and status blocks). -/
theorem apply_move_effects_valid (e : BattleEngine) (a d : Pokemon) (m : Move)
    (s : BattleState) (r : Rng)
    (ha : PokemonValid a) (hd : PokemonValid d) (hmv : MoveHealOk m) :
    PokemonValid (e.apply_move_effects a d m s r).1 ∧
    PokemonValid (e.apply_move_effects a d m s r).2.1 := by
  unfold BattleEngine.apply_move_effects
  split
  · exact ⟨ha, hd⟩
  · rename_i hfalsy
    have hhealok : ∀ q, (m.effects.getD {}).heal = Option.some q → 0 ≤ toRat q := by
      intro q hqe
      rcases hme : m.effects with _ | fx
      · rw [hme] at hfalsy
        exact absurd rfl hfalsy
      · rw [hme, Option.getD_some] at hqe
        exact hmv fx q hme hqe
    rcases hsec : ame_secondary d s (m.effects.getD {}) r with ⟨d1, log1, r1⟩
    rcases hheal : ame_heal a (ame_screen (ame_hazard s (m.effects.getD {}))
        (m.effects.getD {})) (m.effects.getD {}) with ⟨a1, log2⟩
    simp only [hsec, hheal]
    constructor
    · have hv := ame_heal_valid a (ame_screen (ame_hazard s (m.effects.getD {}))
        (m.effects.getD {})) (m.effects.getD {}) ha hhealok
      rw [hheal] at hv
      exact hv
    · have hd1 : PokemonValid d1 := by
        have hv := ame_secondary_valid d s (m.effects.getD {}) r hd
        rw [hsec] at hv
        exact hv
      exact ame_status_valid d1 (m.effects.getD {}) hd1

/-- Lowering HP by a nonnegative amount, clamped at 0, keeps a Combatant
valid. -/
theorem pokemon_valid_sub_damage (p : Pokemon) (dmg : ℤ) (hp : PokemonValid p)
    (hd : 0 ≤ dmg) : PokemonValid { p with hp := max 0 (p.hp - dmg) } := by
  obtain ⟨h1, h2, h3, hb⟩ := hp
  exact ⟨le_max_left 0 _, show max 0 (p.hp - dmg) ≤ p.max_hp from by omega, h3, hb⟩

/-- The end-of-turn status tick preserves Combatant validity and deals
nonnegative damage. -/
theorem apply_status_damage_valid (p : Pokemon) (hp : PokemonValid p) :
    PokemonValid (apply_status_damage p).1 ∧ 0 ≤ (apply_status_damage p).2 := by
  obtain ⟨h1, h2, h3, hb⟩ := hp
  have hmax : 0 ≤ p.max_hp := le_trans h1 h2
  have h18 : 0 ≤ toRat (1/8 : Pyq) := by
    rw [show (1/8 : Pyq) = (⟨1, 8⟩ : Pyq) from by decide]
    norm_num [toRat]
  cases hst : p.status with
  | BURN =>
      have c1 : (p.status == StatusCondition.BURN) = true := by rw [hst]; decide
      have hrw : apply_status_damage p =
          ({ p with hp := max 0 (p.hp - pyInt ((p.max_hp : Pyq) * (1/8))) },
           pyInt ((p.max_hp : Pyq) * (1/8))) := by
        simp only [apply_status_damage, c1, eq_self_iff_true, if_true]
      rw [hrw]
      have hd : 0 ≤ pyInt ((p.max_hp : Pyq) * (1/8)) := pyInt_mul_nonneg _ _ hmax h18
      exact ⟨pokemon_valid_sub_damage p _ ⟨h1, h2, h3, hb⟩ hd, hd⟩
  | POISON =>
      have c1 : (p.status == StatusCondition.BURN) = false := by rw [hst]; decide
      have c2 : (p.status == StatusCondition.POISON) = true := by rw [hst]; decide
      have hrw : apply_status_damage p =
          ({ p with hp := max 0 (p.hp - pyInt ((p.max_hp : Pyq) * (1/8))) },
           pyInt ((p.max_hp : Pyq) * (1/8))) := by
        simp only [apply_status_damage, c1, c2, Bool.false_eq_true, if_false,
          eq_self_iff_true, if_true]
      rw [hrw]
      have hd : 0 ≤ pyInt ((p.max_hp : Pyq) * (1/8)) := pyInt_mul_nonneg _ _ hmax h18
      exact ⟨pokemon_valid_sub_damage p _ ⟨h1, h2, h3, hb⟩ hd, hd⟩
  | BADLY_POISONED =>
      rw [apply_status_damage_bp p hst]
      have hd : 0 ≤ pyInt ((p.max_hp : Pyq) * (1/8) * ((p.status_turns + 1 : ℤ) : Pyq)) := by
        rw [pyInt_bp p.max_hp (p.status_turns + 1) hmax (by omega)]
        refine Int.floor_nonneg.mpr ?_
        exact mul_nonneg (mul_nonneg (by exact_mod_cast hmax) (by norm_num))
          (by exact_mod_cast (show (0 : ℤ) ≤ p.status_turns + 1 from by omega))
      refine ⟨⟨le_max_left 0 _, ?_, ?_, hb⟩, hd⟩
      · show max 0 (p.hp - pyInt ((p.max_hp : Pyq) * (1/8) *
          ((p.status_turns + 1 : ℤ) : Pyq))) ≤ p.max_hp
        omega
      · show 0 ≤ p.status_turns + 1
        omega
  | NONE =>
      have c1 : (p.status == StatusCondition.BURN) = false := by rw [hst]; decide
      have c2 : (p.status == StatusCondition.POISON) = false := by rw [hst]; decide
      have c3 : (p.status == StatusCondition.BADLY_POISONED) = false := by
        rw [hst]; decide
      have hrw : apply_status_damage p = ({ p with hp := max 0 (p.hp - 0) }, 0) := by
        simp only [apply_status_damage, c1, c2, c3, Bool.false_eq_true, if_false]
      rw [hrw]
      exact ⟨pokemon_valid_sub_damage p 0 ⟨h1, h2, h3, hb⟩ le_rfl, le_rfl⟩
  | FREEZE =>
      have c1 : (p.status == StatusCondition.BURN) = false := by rw [hst]; decide
      have c2 : (p.status == StatusCondition.POISON) = false := by rw [hst]; decide
      have c3 : (p.status == StatusCondition.BADLY_POISONED) = false := by
        rw [hst]; decide
      have hrw : apply_status_damage p = ({ p with hp := max 0 (p.hp - 0) }, 0) := by
        simp only [apply_status_damage, c1, c2, c3, Bool.false_eq_true, if_false]
      rw [hrw]
      exact ⟨pokemon_valid_sub_damage p 0 ⟨h1, h2, h3, hb⟩ le_rfl, le_rfl⟩
  | PARALYSIS =>
      have c1 : (p.status == StatusCondition.BURN) = false := by rw [hst]; decide
      have c2 : (p.status == StatusCondition.POISON) = false := by rw [hst]; decide
      have c3 : (p.status == StatusCondition.BADLY_POISONED) = false := by
        rw [hst]; decide
      have hrw : apply_status_damage p = ({ p with hp := max 0 (p.hp - 0) }, 0) := by
        simp only [apply_status_damage, c1, c2, c3, Bool.false_eq_true, if_false]
      rw [hrw]
      exact ⟨pokemon_valid_sub_damage p 0 ⟨h1, h2, h3, hb⟩ le_rfl, le_rfl⟩
  | SLEEP =>
      have c1 : (p.status == StatusCondition.BURN) = false := by rw [hst]; decide
      have c2 : (p.status == StatusCondition.POISON) = false := by rw [hst]; decide
      have c3 : (p.status == StatusCondition.BADLY_POISONED) = false := by
        rw [hst]; decide
      have hrw : apply_status_damage p = ({ p with hp := max 0 (p.hp - 0) }, 0) := by
        simp only [apply_status_damage, c1, c2, c3, Bool.false_eq_true, if_false]
      rw [hrw]
      exact ⟨pokemon_valid_sub_damage p 0 ⟨h1, h2, h3, hb⟩ le_rfl, le_rfl⟩
  | CONFUSION =>
      have c1 : (p.status == StatusCondition.BURN) = false := by rw [hst]; decide
      have c2 : (p.status == StatusCondition.POISON) = false := by rw [hst]; decide
      have c3 : (p.status == StatusCondition.BADLY_POISONED) = false := by
        rw [hst]; decide
      have hrw : apply_status_damage p = ({ p with hp := max 0 (p.hp - 0) }, 0) := by
        simp only [apply_status_damage, c1, c2, c3, Bool.false_eq_true, if_false]
      rw [hrw]
      exact ⟨pokemon_valid_sub_damage p 0 ⟨h1, h2, h3, hb⟩ le_rfl, le_rfl⟩

/-- Validity of one side of a state. -/
theorem state_valid_get (s : BattleState) (pl : Player) (hs : StateValid s) :
    PokemonValid (s.get pl).active ∧ ∀ p ∈ (s.get pl).bench, PokemonValid p := by
  obtain ⟨h1, h2, h3, h4⟩ := hs
  cases pl
  · exact ⟨h1, h2⟩
  · exact ⟨h3, h4⟩

/-- Writing a valid side back into a valid state keeps the state valid. -/
theorem state_valid_set (s : BattleState) (pl : Player) (ps : PlayerState)
    (hs : StateValid s) (ha : PokemonValid ps.active)
    (hb : ∀ p ∈ ps.bench, PokemonValid p) : StateValid (s.set pl ps) := by
  obtain ⟨h1, h2, h3, h4⟩ := hs
  cases pl
  · exact ⟨ha, hb, h3, h4⟩
  · exact ⟨h1, h2, ha, hb⟩

/-- Replacing an active Combatant by a valid one keeps the state valid. -/
theorem state_valid_set_active (s : BattleState) (pl : Player) (p : Pokemon)
    (hs : StateValid s) (hp : PokemonValid p) :
    StateValid (s.set pl { (s.get pl) with active := p }) :=
  state_valid_set s pl _ hs hp (state_valid_get s pl hs).2

/-- execute_switch preserves state validity. -/
theorem execute_switch_valid (e : BattleEngine) (s : BattleState) (pl : Player)
    (act : Action) (hs : StateValid s) : StateValid (e.execute_switch s pl act).1 := by
  simp only [BattleEngine.execute_switch]
  split
  · rename_i hlen
    apply state_valid_set _ _ _ hs
    · have hmem : (s.get pl).bench.getD act.pokemonIdx (s.get pl).active ∈
          (s.get pl).bench := by
        rw [List.getD_eq_getElem _ _ hlen]
        exact List.getElem_mem hlen
      exact (state_valid_get s pl hs).2 _ hmem
    · intro p hp
      rcases List.mem_or_eq_of_mem_set hp with h | h
      · exact (state_valid_get s pl hs).2 p h
      · rw [h]
        exact (state_valid_get s pl hs).1
  · exact hs

/-- execute_move preserves state validity, given well-formed heal tables. -/
theorem execute_move_valid (e : BattleEngine) (s : BattleState) (pl : Player)
    (act : Action) (r : Rng) (hs : StateValid s) (hmo : StateMovesOk s) :
    StateValid (e.execute_move s pl act r).1 := by
  simp only [BattleEngine.execute_move]
  rcases hf : (s.get pl).active.moves.find? (fun m => m.move_id == act.moveId) with _ | mv
  · simp only [hf]
    exact hs
  · simp only [hf]
    have hmv : MoveHealOk mv := by
      have hmem : mv ∈ (s.get pl).active.moves := List.mem_of_find?_eq_some hf
      obtain ⟨hm1, _, hm2, _⟩ := hmo
      cases pl
      · exact hm1 mv hmem
      · exact hm2 mv hmem
    rcases hca : e.check_accuracy mv (s.get pl).active (s.get pl.other).active r
      with ⟨hit, r1⟩
    simp only [hca]
    split
    · exact hs
    · split
      · rename_i hcat
        have hne : mv.category ≠ MoveCategory.STATUS := bne_iff_ne.mp hcat
        rcases hcd : e.calculate_damage (s.get pl).active (s.get pl.other).active mv s r1
          with ⟨⟨dmg, crit, eff⟩, r2⟩
        simp only [hcd, rand]
        rcases hfx : e.apply_move_effects (s.get pl).active
            { (s.get pl.other).active with hp := max 0 ((s.get pl.other).active.hp - dmg) }
            mv s r2.tail with ⟨a1, d1, s1, log1, r3⟩
        have hframe := apply_move_effects_frame e (s.get pl).active
            { (s.get pl.other).active with hp := max 0 ((s.get pl.other).active.hp - dmg) }
            mv s r2.tail
        rw [hfx] at hframe
        have hdmg1 : (1 : ℤ) ≤ dmg := by
          have h := calculate_damage_ge_one e (s.get pl).active (s.get pl.other).active
            mv s r1 hne
          rw [hcd] at h
          exact h
        have hdv : PokemonValid { (s.get pl.other).active with
            hp := max 0 ((s.get pl.other).active.hp - dmg) } :=
          pokemon_valid_sub_damage _ dmg (state_valid_get s pl.other hs).1 (by omega)
        have hval := apply_move_effects_valid e (s.get pl).active
          { (s.get pl.other).active with
            hp := max 0 ((s.get pl.other).active.hp - dmg) }
          mv s r2.tail (state_valid_get s pl hs).1 hdv hmv
        rw [hfx] at hval
        simp only [hfx]
        have hsv1 : StateValid s1 := by
          obtain ⟨hA, hB, hC, hD⟩ := hs
          refine ⟨?_, ?_, ?_, ?_⟩
          · rw [hframe.2.1]
            exact hA
          · rw [hframe.2.2.1]
            exact hB
          · rw [hframe.2.2.2.1]
            exact hC
          · rw [hframe.2.2.2.1]
            exact hD
        have hstep := state_valid_set_active s1 pl a1 hsv1 hval.1
        exact state_valid_set_active _ pl.other d1 hstep hval.2
      · rcases hfx : e.apply_move_effects (s.get pl).active (s.get pl.other).active
            mv s r1 with ⟨a1, d1, s1, log1, r3⟩
        have hframe := apply_move_effects_frame e (s.get pl).active
            (s.get pl.other).active mv s r1
        rw [hfx] at hframe
        have hval := apply_move_effects_valid e (s.get pl).active (s.get pl.other).active
          mv s r1 (state_valid_get s pl hs).1 (state_valid_get s pl.other hs).1 hmv
        rw [hfx] at hval
        simp only [hfx]
        have hsv1 : StateValid s1 := by
          obtain ⟨hA, hB, hC, hD⟩ := hs
          refine ⟨?_, ?_, ?_, ?_⟩
          · rw [hframe.2.1]
            exact hA
          · rw [hframe.2.2.1]
            exact hB
          · rw [hframe.2.2.2.1]
            exact hC
          · rw [hframe.2.2.2.1]
            exact hD
        have hstep := state_valid_set_active s1 pl a1 hsv1 hval.1
        exact state_valid_set_active _ pl.other d1 hstep hval.2

/-- One end-of-turn step preserves state validity. -/
theorem end_of_turn_step_valid (acc : BattleState × List BattleLogEntry) (pl : Player)
    (h : StateValid acc.1) : StateValid (end_of_turn_step acc pl).1 := by
  rcases acc with ⟨s, log⟩
  simp only [end_of_turn_step]
  split
  · rcases hsd : apply_status_damage (s.get pl).active with ⟨tk, dmg⟩
    simp only [hsd]
    have htk : PokemonValid tk := by
      have hv := apply_status_damage_valid (s.get pl).active (state_valid_get s pl h).1
      rw [hsd] at hv
      exact hv.1
    have hnew : StateValid (s.set pl { (s.get pl) with active := tk }) :=
      state_valid_set_active s pl tk h htk
    split
    · exact hnew
    · exact hnew
  · exact h

/-- apply_end_of_turn_effects preserves state validity. -/
theorem apply_end_of_turn_valid (e : BattleEngine) (s : BattleState)
    (hs : StateValid s) : StateValid (e.apply_end_of_turn_effects s).1 := by
  simp only [BattleEngine.apply_end_of_turn_effects, List.foldl_cons, List.foldl_nil]
  exact end_of_turn_step_valid _ Player.p2 (end_of_turn_step_valid (s, []) Player.p1 hs)

/-- C8: every cited engine operation preserves the Combatant invariant
(0 ≤ hp ≤ max_hp each boost stage in [-6, 6], nonnegative status-turn
counter), and a Combatant carries at most one major status at a time
(the status field is single-valued). -/
theorem combatant_invariants_preserved
    (e : BattleEngine) (s : BattleState) (pl : Player) (act : Action) (r r2 : Rng)
    (a d p : Pokemon) (mv : Move) (st1 st2 : StatusCondition)
    (hs : StateValid s) (hmo : StateMovesOk s)
    (ha : PokemonValid a) (hd : PokemonValid d) (hmv : MoveHealOk mv)
    (hp : PokemonValid p) :
    StateValid (e.execute_move s pl act r).1 ∧
    PokemonValid (e.apply_move_effects a d mv s r2).1 ∧
    PokemonValid (e.apply_move_effects a d mv s r2).2.1 ∧
    PokemonValid (apply_status_damage p).1 ∧
    StateValid (e.execute_switch s pl act).1 ∧
    StateValid (e.apply_end_of_turn_effects s).1 ∧
    (p.status = st1 → p.status = st2 → st1 = st2) :=
  ⟨execute_move_valid e s pl act r hs hmo,
   (apply_move_effects_valid e a d mv s r2 ha hd hmv).1,
   (apply_move_effects_valid e a d mv s r2 ha hd hmv).2,
   (apply_status_damage_valid p hp).1,
   execute_switch_valid e s pl act hs,
   apply_end_of_turn_valid e s hs,
   fun h1 h2 => by rw [← h1]; exact h2⟩

/-- The moves of the immunity-state Combatants all have well-formed heal
effects (they only know effect-free Tackle). -/
theorem cex_imm_state_moves_ok : StateMovesOk cex_imm_state := by
  refine ⟨?_, ?_, ?_, ?_⟩
  · intro m hm
    have hm2 : m ∈ [demo_tackle] := hm
    rw [List.mem_singleton] at hm2
    rw [hm2]
    exact MoveHealOk_of_none demo_tackle rfl
  · intro p hp
    exact absurd (show p ∈ ([] : List Pokemon) from hp) (List.not_mem_nil p)
  · intro m hm
    have hm2 : m ∈ [demo_tackle] := hm
    rw [List.mem_singleton] at hm2
    rw [hm2]
    exact MoveHealOk_of_none demo_tackle rfl
  · intro p hp
    exact absurd (show p ∈ ([] : List Pokemon) from hp) (List.not_mem_nil p)

/-- Witness for combatant_invariants_preserved at the concrete immunity
state, the fallback Tackle, and the badly poisoned max-HP-8 Combatant. -/
theorem combatant_invariants_preserved_witness :
    StateValid (e0.execute_move cex_imm_state Player.p1 cex_act []).1 ∧
    PokemonValid (e0.apply_move_effects (demo_mon "att" 100 80) ghost_mon demo_tackle
      cex_imm_state []).1 ∧
    PokemonValid (e0.apply_move_effects (demo_mon "att" 100 80) ghost_mon demo_tackle
      cex_imm_state []).2.1 ∧
    PokemonValid (apply_status_damage bp8_mon).1 ∧
    StateValid (e0.execute_switch cex_imm_state Player.p1 cex_act).1 ∧
    StateValid (e0.apply_end_of_turn_effects cex_imm_state).1 ∧
    (bp8_mon.status = StatusCondition.BADLY_POISONED →
      bp8_mon.status = StatusCondition.BADLY_POISONED →
      StatusCondition.BADLY_POISONED = StatusCondition.BADLY_POISONED) :=
  combatant_invariants_preserved e0 cex_imm_state Player.p1 cex_act [] []
    (demo_mon "att" 100 80) ghost_mon bp8_mon demo_tackle
    StatusCondition.BADLY_POISONED StatusCondition.BADLY_POISONED
    (by decide) cex_imm_state_moves_ok (by decide) (by decide)
    (MoveHealOk_of_none demo_tackle rfl) (by decide)

end PokeAI
